import Mathlib

/-!
Formal model of the Shopee 2D platformer engine
(`src/components/GameEngine.tsx`): the data model, the per-tick update
functions (player controller, token/power-up collector, enemy AI, particle
system, game-loop orchestrator) and verified properties about them.

Modelling conventions:
* JavaScript numbers are modelled as exact rationals (`ℚ`); integer-valued
  counters (frames, health, score) are modelled as `Int`.
* `Math.random()` is modelled as a pre-drawn stream of rationals carried in
  the world state (`rand`); each call pops the head of the stream.
* `Math.sin` is an abstract parameter `sinq : ℚ → ℚ` of the tick function
  (it is only used for the kraken's cosmetic vertical drift).
* Sound playback and canvas drawing are external effects with no simulation
  state, except for the screen-shake decay performed inside `render`, which
  is modelled by `renderEffect`.
* `addParticles` call sites are additionally recorded as `BurstReq` values
  (position, count, type, color) so that theorems can speak about which
  particle bursts a tick emits; the particles themselves are also created,
  faithfully to the source.
* The `setTimeout` callback in the magento-bot glitch mutates state outside
  the tick and is not part of the per-tick transition.
-/

/-- Game constants from the source. -/
def CANVAS_WIDTH : ℚ := 1200

def CANVAS_HEIGHT : ℚ := 600

def GRAVITY : ℚ := 0.8

def JUMP_FORCE : ℚ := -15

def MOVE_SPEED : ℚ := 5

def DASH_SPEED : ℚ := 12

def COYOTE_TIME : Int := 8

def JUMP_BUFFER_TIME : Int := 8

/-- Player facing direction. -/
inductive Facing where
  | left
  | right
  deriving DecidableEq, Repr

/-- Player movement state. -/
inductive PState where
  | idle
  | running
  | jumping
  | dashing
  | damage
  deriving DecidableEq, Repr

/-- Token type. -/
inductive TokenType where
  | shopify
  | gem
  deriving DecidableEq, Repr

/-- Platform type. -/
inductive PlatformType where
  | normal
  | crumbling
  | moving
  deriving DecidableEq, Repr

/-- Enemy type. -/
inductive EnemyType where
  | magentoBot
  | salesforceKraken
  | wooZombie
  deriving DecidableEq, Repr

/-- Enemy behaviour state. -/
inductive EnemyState where
  | idle
  | walk
  | attack
  | damage
  deriving DecidableEq, Repr

/-- Power-up type. -/
inductive PowerUpType where
  | themeBooster
  | checkoutDash
  | appMagnet
  deriving DecidableEq, Repr

/-- Particle visual type. -/
inductive ParticleType where
  | spark
  | dust
  | code
  | explosion
  deriving DecidableEq, Repr

/-- Level identifier. -/
inductive LevelId where
  | magento
  | salesforce
  | woocommerce
  | boss
  deriving DecidableEq, Repr

/-- Axis-aligned rectangle, the base shape of all physical entities. -/
structure Rect where
  x : ℚ
  y : ℚ
  width : ℚ
  height : ℚ
  deriving DecidableEq, Repr

/-- `checkCollision`: half-open AABB overlap test, exactly as in the source:
`rect1.x < rect2.x + rect2.width && rect1.x + rect1.width > rect2.x &&
 rect1.y < rect2.y + rect2.height && rect1.y + rect1.height > rect2.y`. -/
def checkCollision (rect1 rect2 : Rect) : Bool :=
  decide (rect1.x < rect2.x + rect2.width) &&
  decide (rect1.x + rect1.width > rect2.x) &&
  decide (rect1.y < rect2.y + rect2.height) &&
  decide (rect1.y + rect1.height > rect2.y)

/-- The horizontal half of the overlap test (specification helper). -/
def overlapX (rect1 rect2 : Rect) : Bool :=
  decide (rect1.x < rect2.x + rect2.width) && decide (rect1.x + rect1.width > rect2.x)

/-- The vertical half of the overlap test (specification helper). -/
def overlapY (rect1 rect2 : Rect) : Bool :=
  decide (rect1.y < rect2.y + rect2.height) && decide (rect1.y + rect1.height > rect2.y)

/-- The singleton player. -/
structure Player where
  x : ℚ
  y : ℚ
  width : ℚ
  height : ℚ
  velocityX : ℚ
  velocityY : ℚ
  onGround : Bool
  facing : Facing
  state : PState
  canDoubleJump : Bool
  hasDoubleJumped : Bool
  dashCooldown : Int
  health : Int
  coyoteTime : Int
  jumpBuffer : Int
  animationFrame : Int
  animationTimer : Int
  invulnerable : Int
  deriving DecidableEq, Repr

def playerRect (p : Player) : Rect := ⟨p.x, p.y, p.width, p.height⟩

/-- A token (collectible). -/
structure Token where
  x : ℚ
  y : ℚ
  width : ℚ
  height : ℚ
  collected : Bool
  type : TokenType
  value : Int
  animationFrame : Int
  deriving DecidableEq, Repr

def tokenRect (t : Token) : Rect := ⟨t.x, t.y, t.width, t.height⟩

/-- A platform; the `move*` fields are optional exactly as in the source. -/
structure Platform where
  x : ℚ
  y : ℚ
  width : ℚ
  height : ℚ
  type : PlatformType
  moveSpeed : Option ℚ := none
  moveDirection : Option ℚ := none
  originalX : Option ℚ := none
  moveRange : Option ℚ := none
  deriving DecidableEq, Repr

def platRect (pf : Platform) : Rect := ⟨pf.x, pf.y, pf.width, pf.height⟩

/-- An enemy. -/
structure Enemy where
  x : ℚ
  y : ℚ
  width : ℚ
  height : ℚ
  velocityX : ℚ
  velocityY : ℚ
  type : EnemyType
  health : Int
  active : Bool
  animationFrame : Int
  animationTimer : Int
  state : EnemyState
  attackCooldown : Int
  floatOffset : Option ℚ := none
  deriving DecidableEq, Repr

def enemyRect (e : Enemy) : Rect := ⟨e.x, e.y, e.width, e.height⟩

/-- A power-up. -/
structure PowerUp where
  x : ℚ
  y : ℚ
  width : ℚ
  height : ℚ
  type : PowerUpType
  collected : Bool
  duration : Int
  animationFrame : Int
  deriving DecidableEq, Repr

def powerUpRect (pu : PowerUp) : Rect := ⟨pu.x, pu.y, pu.width, pu.height⟩

/-- A particle. -/
structure Particle where
  x : ℚ
  y : ℚ
  velocityX : ℚ
  velocityY : ℚ
  life : Int
  maxLife : Int
  color : String
  size : ℚ
  type : ParticleType
  deriving DecidableEq, Repr

/-- The session-scoped game state. -/
structure GameState where
  level : Int
  score : Int
  tokens : Int
  time : ℚ
  paused : Bool
  gameOver : Bool
  victory : Bool
  currentLevel : LevelId
  screenShake : Int
  cameraX : ℚ
  musicEnabled : Bool
  sfxEnabled : Bool
  deriving DecidableEq, Repr

/-- Currently held keys (after `e.key.toLowerCase()`), restricted to the keys
the engine reads. -/
structure Keys where
  a : Bool
  arrowleft : Bool
  d : Bool
  arrowright : Bool
  w : Bool
  arrowup : Bool
  space : Bool
  shift : Bool
  deriving DecidableEq, Repr

/-- A recorded `addParticles(x, y, count, type, color)` call. -/
structure BurstReq where
  x : ℚ
  y : ℚ
  count : Nat
  type : ParticleType
  color : String
  deriving DecidableEq, Repr

/-- The whole mutable world: entity stores, session state and the pre-drawn
randomness stream. -/
structure World where
  gameState : GameState
  player : Player
  platforms : List Platform
  tokens : List Token
  enemies : List Enemy
  powerUps : List PowerUp
  particles : List Particle
  rand : List ℚ
  deriving DecidableEq, Repr

/-- Draw one `Math.random()` value from the pre-drawn stream. -/
def drawRand (rs : List ℚ) : ℚ × List ℚ := (rs.headD 0, rs.tail)

/-- One particle as built inside `addParticles`, with the five `Math.random()`
draws made explicit (x jitter, y jitter, velocityX, velocityY, size). -/
def mkParticle (x y : ℚ) (ty : ParticleType) (color : String)
    (r1 r2 r3 r4 r5 : ℚ) : Particle :=
  { x := x + r1 * 20 - 10
    y := y + r2 * 20 - 10
    velocityX := (r3 - 0.5) * 8
    velocityY := (r4 - 0.5) * 8 - 2
    life := 60
    maxLife := 60
    color := color
    size := r5 * 4 + 2
    type := ty }

/-- The particle-building loop of `addParticles`, consuming the randomness
stream (five draws per particle). -/
def addParticlesGo (x y : ℚ) (ty : ParticleType) (color : String) :
    Nat → List ℚ → List Particle × List ℚ
  | 0, rs => ([], rs)
  | n + 1, rs =>
    let (r1, rs) := drawRand rs
    let (r2, rs) := drawRand rs
    let (r3, rs) := drawRand rs
    let (r4, rs) := drawRand rs
    let (r5, rs) := drawRand rs
    let (ps, rs) := addParticlesGo x y ty color n rs
    (mkParticle x y ty color r1 r2 r3 r4 r5 :: ps, rs)

/-- `addParticles(x, y, count, type, color)`: appends `count` new particles to
the store. -/
def addParticles (x y : ℚ) (count : Nat) (ty : ParticleType) (color : String)
    (w : World) : World :=
  let (ps, rs) := addParticlesGo x y ty color count w.rand
  { w with particles := w.particles ++ ps, rand := rs }

/-- Apply a list of recorded `addParticles` calls in order. -/
def applyBursts (bs : List BurstReq) (w : World) : World :=
  bs.foldl (fun w b => addParticles b.x b.y b.count b.type b.color w) w

/-- One particle advanced by `updateParticles`: integrate position, apply the
constant downward acceleration, decrement life. -/
def stepParticle (pt : Particle) : Particle :=
  { pt with
    x := pt.x + pt.velocityX
    y := pt.y + pt.velocityY
    velocityY := pt.velocityY + 0.2
    life := pt.life - 1 }

/-- `updateParticles`: advance all particles and drop the dead ones. -/
def updateParticles (w : World) : World :=
  { w with particles := (w.particles.map stepParticle).filter (fun pt => pt.life > 0) }

/-- `ANIMATION_SPEEDS[state]`: the object has no `dashing` key, so the lookup
yields `undefined` for the dashing state (and the `>=` test is then false). -/
def animSpeed : PState → Option Int
  | .idle => some 60
  | .running => some 8
  | .jumping => some 1
  | .damage => some 30
  | .dashing => none

/-- Player-controller phase 1: advance the animation timer and wrap the frame
index modulo 4 when the per-state cadence is reached. -/
def animStep (p : Player) : Player :=
  let t := p.animationTimer + 1
  match animSpeed p.state with
  | some v =>
    if t ≥ v then { p with animationFrame := (p.animationFrame + 1) % 4, animationTimer := 0 }
    else { p with animationTimer := t }
  | none => { p with animationTimer := t }

/-- Player-controller phase 2: horizontal input with acceleration, friction
decay, and idle snap when grounded and slow. -/
def horizStep (k : Keys) (p : Player) : Player :=
  if k.a || k.arrowleft then
    { p with
      velocityX := max (p.velocityX - 0.8) (-MOVE_SPEED)
      facing := .left
      state := if p.onGround then .running else p.state }
  else if k.d || k.arrowright then
    { p with
      velocityX := min (p.velocityX + 0.8) MOVE_SPEED
      facing := .right
      state := if p.onGround then .running else p.state }
  else
    let v := p.velocityX * 0.85
    if p.onGround ∧ |v| < 0.1 then { p with velocityX := 0, state := .idle }
    else { p with velocityX := v }

/-- Player-controller phase 3: coyote time refresh / decay and clearing of the
double-jump-used flag on the ground. -/
def coyoteStep (p : Player) : Player :=
  if p.onGround then { p with coyoteTime := COYOTE_TIME, hasDoubleJumped := false }
  else if p.coyoteTime > 0 then { p with coyoteTime := p.coyoteTime - 1 }
  else p

/-- Player-controller phase 4: jump-buffer decay. -/
def bufferStep (p : Player) : Player :=
  if p.jumpBuffer > 0 then { p with jumpBuffer := p.jumpBuffer - 1 } else p

/-- Player-controller phase 5: execute a buffered jump when coyote time
remains or an unused double jump is available. -/
def jumpStep (p : Player) : Player :=
  if p.jumpBuffer > 0 ∧ (p.coyoteTime > 0 ∨ (¬p.hasDoubleJumped ∧ p.canDoubleJump)) then
    let p1 := if p.coyoteTime ≤ 0 ∧ p.canDoubleJump then { p with hasDoubleJumped := true } else p
    { p1 with
      velocityY := JUMP_FORCE
      onGround := false
      coyoteTime := 0
      jumpBuffer := 0
      state := .jumping }
  else p

/-- Player-controller phase 6: variable jump height — halve the ascent when
the jump key is released while rising faster than the threshold. -/
def varJumpStep (k : Keys) (p : Player) : Player :=
  let jumpPressed := k.w || k.arrowup || k.space
  if ¬jumpPressed ∧ p.velocityY < -5 then { p with velocityY := p.velocityY * 0.5 } else p

/-- Player-controller phase 7: dash, when the dash key is held and the
cooldown has elapsed; emits the spark burst at the player's centre. -/
def dashStep (k : Keys) (p : Player) : Player × List BurstReq :=
  if k.shift ∧ p.dashCooldown ≤ 0 then
    ({ p with
        velocityX := if p.facing = .right then DASH_SPEED else -DASH_SPEED
        state := .dashing
        dashCooldown := 60 },
     [⟨p.x + p.width / 2, p.y + p.height / 2, 8, .spark, "#7C3AED"⟩])
  else (p, [])

/-- Player-controller phase 8: gravity while airborne; airborne and not
dashing forces the jumping visual state. -/
def gravityStep (p : Player) : Player :=
  if p.onGround then p
  else
    { p with
      velocityY := p.velocityY + GRAVITY
      state := if p.state = .dashing then p.state else .jumping }

/-- Player-controller phase 9: integrate position by velocity. -/
def integrateStep (p : Player) : Player :=
  { p with x := p.x + p.velocityX, y := p.y + p.velocityY }

/-- JavaScript `(v || 1)` on the optional move direction. -/
def jsOrOne : Option ℚ → ℚ
  | some v => if v = 0 then 1 else v
  | none => 1

/-- Per-tick advance of a moving platform: oscillate at `moveSpeed`, reversing
`moveDirection` whenever the new x reaches either bound. -/
def movePlat (pf : Platform) : Platform :=
  match pf.moveSpeed, pf.originalX, pf.moveRange with
  | some ms, some ox, some mr =>
    if pf.type = .moving ∧ ms ≠ 0 ∧ mr ≠ 0 then
      let x1 := pf.x + ms * jsOrOne pf.moveDirection
      if x1 ≥ ox + mr ∨ x1 ≤ ox then
        { pf with x := x1, moveDirection := some (-(jsOrOne pf.moveDirection)) }
      else { pf with x := x1 }
    else pf
  | _, _, _ => pf

/-- Collision resolution against one platform, classified by velocity sign and
relative position; `wog` is the grounded flag captured before the platform
loop (landing dust is emitted only on the airborne-to-grounded transition). -/
def resolveCollision (wog : Bool) (pf : Platform) (p : Player) : Player × List BurstReq :=
  if checkCollision (playerRect p) (platRect pf) then
    if p.velocityY > 0 ∧ p.y < pf.y then
      ({ p with y := pf.y - p.height, velocityY := 0, onGround := true },
       if ¬wog then [⟨p.x + p.width / 2, pf.y - p.height + p.height, 5, .dust, "#8B4513"⟩] else [])
    else if p.velocityY < 0 ∧ p.y > pf.y then
      ({ p with y := pf.y + pf.height, velocityY := 0 }, [])
    else if p.velocityX > 0 then
      ({ p with x := pf.x - p.width, velocityX := 0 }, [])
    else if p.velocityX < 0 then
      ({ p with x := pf.x + pf.width, velocityX := 0 }, [])
    else (p, [])
  else (p, [])

/-- The platform loop: advance each (moving) platform, then resolve the
player's collision with it, in list order. -/
def platsGo (wog : Bool) : List Platform → Player → Player × List Platform × List BurstReq
  | [], p => (p, [], [])
  | pf :: pfs, p =>
    let pf1 := movePlat pf
    let (p1, bs1) := resolveCollision wog pf1 p
    let (p2, pfs2, bs2) := platsGo wog pfs p1
    (p2, pf1 :: pfs2, bs1 ++ bs2)

/-- Player-controller phase 11: world-bounds clamping and fall-off-the-world
damage (respawn at the spawn point, damage state, invulnerability window);
the boolean reports whether the fall happened (it triggers screen shake). -/
def boundsStep (p : Player) : Player × Bool :=
  let p1 := if p.x < 0 then { p with x := 0 } else p
  let p2 := if p1.x + p1.width > CANVAS_WIDTH then { p1 with x := CANVAS_WIDTH - p1.width } else p1
  if p2.y > CANVAS_HEIGHT then
    ({ p2 with
        health := p2.health - 1
        x := 100
        y := 400
        velocityX := 0
        velocityY := 0
        state := .damage
        invulnerable := 120 }, true)
  else (p2, false)

/-- Player-controller phase 12: decrement the dash-cooldown and
invulnerability counters toward zero. -/
def cooldownStep (p : Player) : Player :=
  let p1 := if p.dashCooldown > 0 then { p with dashCooldown := p.dashCooldown - 1 } else p
  if p1.invulnerable > 0 then { p1 with invulnerable := p1.invulnerable - 1 } else p1

/-- Result of the pure part of `updatePlayer`. -/
structure PhysOut where
  player : Player
  platforms : List Platform
  bursts : List BurstReq
  fell : Bool
  deriving DecidableEq, Repr

/-- Phases 1-9 of the player controller: animation, horizontal input, coyote
time, jump buffer, jump, variable jump height, dash, gravity, integration. -/
def prePlat (k : Keys) (p : Player) : Player × List BurstReq :=
  let p1 := animStep p
  let p2 := horizStep k p1
  let p3 := coyoteStep p2
  let p4 := bufferStep p3
  let p5 := jumpStep p4
  let p6 := varJumpStep k p5
  let (p7, dashBs) := dashStep k p6
  let p8 := gravityStep p7
  let p9 := integrateStep p8
  (p9, dashBs)

/-- The body of `updatePlayer`: all phases in source order. -/
def playerPhysics (k : Keys) (plats : List Platform) (p : Player) : PhysOut :=
  let (p9, dashBs) := prePlat k p
  let wog := p9.onGround
  let p10 := { p9 with onGround := false }
  let (p11, plats2, landBs) := platsGo wog plats p10
  let (p12, fell) := boundsStep p11
  let p13 := cooldownStep p12
  ⟨p13, plats2, dashBs ++ landBs, fell⟩

/-- `updatePlayer`: early-return when paused or game over, otherwise run the
physics, append the emitted particle bursts, and set the fall screen shake. -/
def updatePlayer (k : Keys) (w : World) : World :=
  if w.gameState.paused || w.gameState.gameOver then w
  else
    let r := playerPhysics k w.platforms w.player
    let w1 := applyBursts r.bursts { w with player := r.player, platforms := r.platforms }
    if r.fell then { w1 with gameState := { w1.gameState with screenShake := 20 } } else w1

/-- Result of the per-token step of `updateTokens`. -/
structure TokOut where
  token : Token
  gs : GameState
  bursts : List BurstReq
  deriving DecidableEq, Repr

/-- Per-token step of `updateTokens`: advance the animation frame
unconditionally; on first overlap with the player award score and token
count, emit the themed burst at the token's centre, and mark collected. -/
def collectToken (ps : Player) (gs : GameState) (t : Token) : TokOut :=
  let t1 := { t with animationFrame := (t.animationFrame + 1) % 60 }
  if ¬t1.collected ∧ checkCollision (playerRect ps) (tokenRect t1) then
    ⟨{ t1 with collected := true },
     { gs with tokens := gs.tokens + 1, score := gs.score + t1.value },
     [⟨t1.x + t1.width / 2, t1.y + t1.height / 2, 6, .spark,
       if t1.type = .shopify then "#00D4AA" else "#FFD700"⟩]⟩
  else ⟨t1, gs, []⟩

/-- The token loop of `updateTokens`, in list order. -/
def tokensGo (ps : Player) : List Token → GameState → List Token × GameState × List BurstReq
  | [], gs => ([], gs, [])
  | t :: ts, gs =>
    let o := collectToken ps gs t
    let (ts1, gs1, bs1) := tokensGo ps ts o.gs
    (o.token :: ts1, gs1, o.bursts ++ bs1)

/-- `updateTokens`: the collision checks read the player snapshot `ps` taken
at the start of the tick. -/
def updateTokens (ps : Player) (w : World) : World :=
  let (ts, gs, bs) := tokensGo ps w.tokens w.gameState
  applyBursts bs { w with tokens := ts, gameState := gs }

/-- Per-enemy animation advance (cadence 15, wrap modulo 4). -/
def animEnemy (e : Enemy) : Enemy :=
  let t := e.animationTimer + 1
  if t ≥ 15 then { e with animationFrame := (e.animationFrame + 1) % 4, animationTimer := 0 }
  else { e with animationTimer := t }

/-- Per-enemy movement, by type, consuming the randomness stream.
The magento bot shuffles and randomly glitches (the deferred un-glitch
`setTimeout` is outside the tick); the kraken drifts by a sine of its phase
accumulator; the zombie lurches with random direction changes. -/
def moveEnemy (sinq : ℚ → ℚ) (e : Enemy) (rs : List ℚ) : Enemy × List ℚ :=
  match e.type with
  | .magentoBot =>
    let e1 := { e with x := e.x + e.velocityX }
    let (r, rs) := drawRand rs
    let e2 := if r < 0.02 then { e1 with velocityX := 0, state := .damage } else e1
    let e3 :=
      if e2.x ≤ 0 ∨ e2.x ≥ CANVAS_WIDTH - e2.width then
        { e2 with velocityX := e2.velocityX * (-1) }
      else e2
    (e3, rs)
  | .salesforceKraken =>
    let fo := (match e.floatOffset with | some v => if v = 0 then 0 else v | none => 0) + 0.1
    ({ e with floatOffset := some fo, y := e.y + sinq fo * 0.5, state := .idle }, rs)
  | .wooZombie =>
    let e1 := { e with x := e.x + e.velocityX }
    let (r, rs) := drawRand rs
    let (e2, rs) :=
      if r < 0.01 then
        let (r2, rs) := drawRand rs
        ({ e1 with velocityX := (r2 - 0.5) * 1 }, rs)
      else (e1, rs)
    let e3 :=
      if e2.x ≤ 0 ∨ e2.x ≥ CANVAS_WIDTH - e2.width then
        { e2 with velocityX := e2.velocityX * (-1) }
      else e2
    (e3, rs)

/-- Result of the player-collision block of `updateEnemies`. -/
structure HitOut where
  pc : Player
  gs : GameState
  e : Enemy
  bursts : List BurstReq
  deriving DecidableEq, Repr

/-- The player-collision block of `updateEnemies`: checked against the tick
snapshot `ps`; mutations apply to the current player `pc`. Dashing defeats
the enemy (score bonus, explosion burst, shake 15); otherwise the player
takes damage, is knocked back opposite its facing, and gets the
invulnerability window (shake 25). -/
def enemyHit (ps : Player) (pc : Player) (gs : GameState) (e : Enemy) : HitOut :=
  if checkCollision (playerRect ps) (enemyRect e) ∧ ps.invulnerable ≤ 0 then
    if ps.state = .dashing then
      ⟨pc,
       { gs with score := gs.score + 100, screenShake := 15 },
       { e with active := false },
       [⟨e.x + e.width / 2, e.y + e.height / 2, 12, .explosion, "#FF4444"⟩]⟩
    else
      ⟨{ pc with
          health := pc.health - 1
          state := .damage
          invulnerable := 120
          velocityX := if pc.facing = .right then -5 else 5 },
       { gs with screenShake := 25 },
       e, []⟩
  else ⟨pc, gs, e, []⟩

/-- One enemy of the `updateEnemies` loop: inactive enemies are returned
untouched; active ones animate, move, then interact with the player. -/
def updateEnemy (sinq : ℚ → ℚ) (ps : Player) (pc : Player) (gs : GameState)
    (rs : List ℚ) (e : Enemy) : Player × GameState × List ℚ × Enemy × List BurstReq :=
  if e.active = false then (pc, gs, rs, e, [])
  else
    let e1 := animEnemy e
    let (e2, rs1) := moveEnemy sinq e1 rs
    let h := enemyHit ps pc gs e2
    (h.pc, h.gs, rs1, h.e, h.bursts)

/-- The enemy loop of `updateEnemies`, in list order. -/
def enemiesGo (sinq : ℚ → ℚ) (ps : Player) :
    List Enemy → Player → GameState → List ℚ →
    List Enemy × Player × GameState × List ℚ × List BurstReq
  | [], pc, gs, rs => ([], pc, gs, rs, [])
  | e :: es, pc, gs, rs =>
    let (pc1, gs1, rs1, e1, bs1) := updateEnemy sinq ps pc gs rs e
    let (es2, pc2, gs2, rs2, bs2) := enemiesGo sinq ps es pc1 gs1 rs1
    (e1 :: es2, pc2, gs2, rs2, bs1 ++ bs2)

/-- `updateEnemies`. -/
def updateEnemies (sinq : ℚ → ℚ) (ps : Player) (w : World) : World :=
  let (es, pc, gs, rs, bs) := enemiesGo sinq ps w.enemies w.player w.gameState w.rand
  applyBursts bs { w with enemies := es, player := pc, gameState := gs, rand := rs }

/-- Result of the per-power-up step of `updatePowerUps`. -/
structure PowerOut where
  pu : PowerUp
  gs : GameState
  bursts : List BurstReq
  deriving DecidableEq, Repr

/-- Per-power-up step of `updatePowerUps`: animation advances
unconditionally; first overlap awards the flat 200-point bonus and the spark
burst and marks collected. -/
def collectPowerUp (ps : Player) (gs : GameState) (pu : PowerUp) : PowerOut :=
  let pu1 := { pu with animationFrame := (pu.animationFrame + 1) % 60 }
  if ¬pu1.collected ∧ checkCollision (playerRect ps) (powerUpRect pu1) then
    ⟨{ pu1 with collected := true },
     { gs with score := gs.score + 200 },
     [⟨pu1.x + pu1.width / 2, pu1.y + pu1.height / 2, 10, .spark, "#7C3AED"⟩]⟩
  else ⟨pu1, gs, []⟩

/-- The power-up loop of `updatePowerUps`, in list order. -/
def powerUpsGo (ps : Player) :
    List PowerUp → GameState → List PowerUp × GameState × List BurstReq
  | [], gs => ([], gs, [])
  | pu :: pus, gs =>
    let o := collectPowerUp ps gs pu
    let (pus1, gs1, bs1) := powerUpsGo ps pus o.gs
    (o.pu :: pus1, gs1, o.bursts ++ bs1)

/-- `updatePowerUps`. -/
def updatePowerUps (ps : Player) (w : World) : World :=
  let (pus, gs, bs) := powerUpsGo ps w.powerUps w.gameState
  applyBursts bs { w with powerUps := pus, gameState := gs }

/-- The guarded update phase of one `gameLoop` tick: player controller,
collectors, enemy AI, particle advance, then the victory and defeat checks
(read from the tick-start player snapshot) and the fixed time increment. -/
def updatePhase (sinq : ℚ → ℚ) (k : Keys) (w : World) : World :=
  let ps := w.player
  let w1 := updatePlayer k w
  let w2 := updateTokens ps w1
  let w3 := updateEnemies sinq ps w2
  let w4 := updatePowerUps ps w3
  let w5 := updateParticles w4
  let gs1 := if ps.x ≥ 1150 ∧ ps.y ≥ 450 then { w5.gameState with victory := true } else w5.gameState
  let gs2 := if ps.health ≤ 0 then { gs1 with gameOver := true } else gs1
  { w5 with gameState := { gs2 with time := gs2.time + 1 / 60 } }

/-- The rendering side effect on game state: screen-shake decay. -/
def renderEffect (w : World) : World :=
  if w.gameState.screenShake > 0 then
    { w with gameState := { w.gameState with screenShake := max 0 (w.gameState.screenShake - 1) } }
  else w

/-- One `gameLoop` tick: run the update phase unless paused or game over,
then always render. -/
def gameLoop (sinq : ℚ → ℚ) (k : Keys) (w : World) : World :=
  let w1 := if !w.gameState.paused && !w.gameState.gameOver then updatePhase sinq k w else w
  renderEffect w1

/-- The player's initial (and respawn) state. -/
def initPlayer : Player :=
  { x := 100, y := 400, width := 32, height := 48
    velocityX := 0, velocityY := 0
    onGround := false, facing := .right, state := .idle
    canDoubleJump := true, hasDoubleJumped := false
    dashCooldown := 0, health := 3
    coyoteTime := 0, jumpBuffer := 0
    animationFrame := 0, animationTimer := 0
    invulnerable := 0 }

/-- The level's single moving platform. -/
def movingPlat : Platform :=
  { x := 950, y := 250, width := 200, height := 20, type := .moving
    moveSpeed := some 1, moveDirection := some 1, originalX := some 950, moveRange := some 100 }

/-- The level's platform list. -/
def initPlatforms : List Platform :=
  [ { x := 0, y := 550, width := 300, height := 50, type := .normal },
    { x := 400, y := 450, width := 200, height := 20, type := .normal },
    { x := 700, y := 350, width := 150, height := 20, type := .crumbling },
    movingPlat,
    { x := 1150, y := 550, width := 50, height := 50, type := .normal },
    { x := 300, y := 350, width := 80, height := 20, type := .normal },
    { x := 600, y := 500, width := 120, height := 20, type := .normal },
    { x := 850, y := 400, width := 80, height := 20, type := .crumbling } ]

/-- The level's token list. -/
def initTokens : List Token :=
  [ ⟨450, 400, 20, 20, false, .shopify, 10, 0⟩,
    ⟨750, 300, 20, 20, false, .shopify, 10, 0⟩,
    ⟨1000, 200, 20, 20, false, .gem, 50, 0⟩,
    ⟨200, 500, 20, 20, false, .shopify, 10, 0⟩,
    ⟨320, 300, 20, 20, false, .shopify, 10, 0⟩,
    ⟨620, 450, 20, 20, false, .gem, 50, 0⟩ ]

/-- The level's enemy list. -/
def initEnemies : List Enemy :=
  [ { x := 500, y := 400, width := 32, height := 32, velocityX := -1, velocityY := 0
      type := .magentoBot, health := 2, active := true, animationFrame := 0
      animationTimer := 0, state := .walk, attackCooldown := 0 },
    { x := 800, y := 300, width := 40, height := 24, velocityX := 0, velocityY := 0
      type := .salesforceKraken, health := 3, active := true, animationFrame := 0
      animationTimer := 0, state := .idle, attackCooldown := 0, floatOffset := some 0 },
    { x := 650, y := 450, width := 28, height := 36, velocityX := 0.5, velocityY := 0
      type := .wooZombie, health := 2, active := true, animationFrame := 0
      animationTimer := 0, state := .walk, attackCooldown := 0 } ]

/-- The level's power-up list. -/
def initPowerUps : List PowerUp :=
  [ ⟨600, 400, 24, 24, .themeBooster, false, 0, 0⟩,
    ⟨350, 300, 24, 24, .checkoutDash, false, 0, 0⟩ ]

/-- `resetGame`: reinitialise the session state (keeping the audio toggles),
the player, and every collected/active/animation field; clear the particles.
Platform positions are not reset. -/
def resetGame (w : World) : World :=
  { gameState :=
      { level := 1, score := 0, tokens := 0, time := 0
        paused := false, gameOver := false, victory := false
        currentLevel := .magento, screenShake := 0, cameraX := 0
        musicEnabled := w.gameState.musicEnabled
        sfxEnabled := w.gameState.sfxEnabled }
    player := initPlayer
    platforms := w.platforms
    tokens := w.tokens.map (fun t => { t with collected := false, animationFrame := 0 })
    enemies := w.enemies.map (fun e =>
      { e with
        active := true
        health := match e.type with
          | .magentoBot => 2
          | .salesforceKraken => 3
          | .wooZombie => 2
        animationFrame := 0
        animationTimer := 0
        state := if e.type = .salesforceKraken then .idle else .walk })
    powerUps := w.powerUps.map (fun pu => { pu with collected := false, animationFrame := 0 })
    particles := []
    rand := w.rand }

/-- The initial session state. -/
def initGameState : GameState :=
  { level := 1, score := 0, tokens := 0, time := 0
    paused := false, gameOver := false, victory := false
    currentLevel := .magento, screenShake := 0, cameraX := 0
    musicEnabled := true, sfxEnabled := true }

/-- The initial world at game start. -/
def initWorld : World :=
  { gameState := initGameState, player := initPlayer, platforms := initPlatforms
    tokens := initTokens, enemies := initEnemies, powerUps := initPowerUps
    particles := [], rand := [] }

/-- No keys held. -/
def noKeys : Keys := ⟨false, false, false, false, false, false, false, false⟩

/-- Only the dash key held. -/
def shiftKeys : Keys := { noKeys with shift := true }

/-- A trivial stand-in for `Math.sin`, usable at concrete inputs. -/
def sinZero : ℚ → ℚ := fun _ => 0

/-- The invariant maintained by the level's moving platform under `movePlat`:
unit speed, direction ±1, x an integer offset inside `[originX, originX +
range]`, and the direction already reversed whenever x sits at a bound. -/
def movingInv (o : ℚ) (r : ℕ) (pf : Platform) : Prop :=
  pf.type = .moving ∧ pf.moveSpeed = some 1 ∧ pf.originalX = some o ∧
    pf.moveRange = some (r : ℚ) ∧ 1 ≤ r ∧
    (∃ n : ℕ, pf.x = o + (n : ℚ) ∧ n ≤ r) ∧
    ((pf.moveDirection = some 1 ∧ pf.x ≠ o + (r : ℚ)) ∨
      (pf.moveDirection = some (-1) ∧ pf.x ≠ o))

/-- A stationary player overlapping a platform (for the collision-resolution
analysis). -/
def restPlayer : Player := { initPlayer with x := 0, y := 0 }

/-- A platform overlapping `restPlayer`. -/
def lowPlat : Platform := { x := 0, y := 20, width := 100, height := 20, type := .normal }

/-- A falling player above `lowPlat` (for the landing resolution). -/
def fallPlayer : Player := { restPlayer with velocityY := 1 }

/-- An uncollected gem token overlapping the initial player. -/
def gemToken : Token := ⟨90, 390, 20, 20, false, .gem, 50, 0⟩

/-- An active enemy overlapping the initial player. -/
def nearEnemy : Enemy :=
  { x := 100, y := 400, width := 32, height := 32, velocityX := 0, velocityY := 0
    type := .magentoBot, health := 2, active := true, animationFrame := 0
    animationTimer := 0, state := .walk, attackCooldown := 0 }

/-- An airborne player with an unused double jump and a freshly buffered
jump press, past the coyote window. -/
def bufferedPlayer : Player := { initPlayer with jumpBuffer := 8 }

/-- An uncollected currency token overlapping the initial player. -/
def shopToken : Token := ⟨90, 390, 20, 20, false, .shopify, 10, 0⟩

/-- The initial player in the dashing state. -/
def dashPlayer : Player := { initPlayer with state := .dashing }

/-- A bare world (empty entity stores) in the running state. -/
def bareWorld : World :=
  { gameState := initGameState, player := initPlayer, platforms := []
    tokens := [], enemies := [], powerUps := [], particles := [], rand := [] }

/-- A bare world with only the victory flag set. -/
def victoryWorld : World := { bareWorld with gameState := { initGameState with victory := true } }

/-- A bare world with the game-over flag set. -/
def overWorld : World := { bareWorld with gameState := { initGameState with gameOver := true } }

theorem checkCollision_eq_overlap (a b : Rect) :
    checkCollision a b = (overlapX a b && overlapY a b) := by
  simp [checkCollision, overlapX, overlapY, Bool.and_assoc]

lemma addParticles_player (x y : ℚ) (c : Nat) (ty : ParticleType) (s : String) (w : World) :
    (addParticles x y c ty s w).player = w.player := rfl

lemma addParticles_gameState (x y : ℚ) (c : Nat) (ty : ParticleType) (s : String) (w : World) :
    (addParticles x y c ty s w).gameState = w.gameState := rfl

lemma addParticles_tokens (x y : ℚ) (c : Nat) (ty : ParticleType) (s : String) (w : World) :
    (addParticles x y c ty s w).tokens = w.tokens := rfl

lemma addParticles_enemies (x y : ℚ) (c : Nat) (ty : ParticleType) (s : String) (w : World) :
    (addParticles x y c ty s w).enemies = w.enemies := rfl

lemma addParticles_platforms (x y : ℚ) (c : Nat) (ty : ParticleType) (s : String) (w : World) :
    (addParticles x y c ty s w).platforms = w.platforms := rfl

lemma addParticles_powerUps (x y : ℚ) (c : Nat) (ty : ParticleType) (s : String) (w : World) :
    (addParticles x y c ty s w).powerUps = w.powerUps := rfl

lemma applyBursts_player (bs : List BurstReq) (w : World) :
    (applyBursts bs w).player = w.player := by
  induction bs generalizing w with
  | nil => rfl
  | cons b bs ih => simpa [applyBursts, addParticles_player] using ih _

lemma applyBursts_gameState (bs : List BurstReq) (w : World) :
    (applyBursts bs w).gameState = w.gameState := by
  induction bs generalizing w with
  | nil => rfl
  | cons b bs ih => simpa [applyBursts, addParticles_gameState] using ih _

lemma applyBursts_tokens (bs : List BurstReq) (w : World) :
    (applyBursts bs w).tokens = w.tokens := by
  induction bs generalizing w with
  | nil => rfl
  | cons b bs ih => simpa [applyBursts, addParticles_tokens] using ih _

lemma applyBursts_enemies (bs : List BurstReq) (w : World) :
    (applyBursts bs w).enemies = w.enemies := by
  induction bs generalizing w with
  | nil => rfl
  | cons b bs ih => simpa [applyBursts, addParticles_enemies] using ih _

lemma applyBursts_platforms (bs : List BurstReq) (w : World) :
    (applyBursts bs w).platforms = w.platforms := by
  induction bs generalizing w with
  | nil => rfl
  | cons b bs ih => simpa [applyBursts, addParticles_platforms] using ih _

lemma applyBursts_powerUps (bs : List BurstReq) (w : World) :
    (applyBursts bs w).powerUps = w.powerUps := by
  induction bs generalizing w with
  | nil => rfl
  | cons b bs ih => simpa [applyBursts, addParticles_powerUps] using ih _

/-- Fields of the session state that the collectors and enemy AI never
write: the pause/terminal flags and the clock. -/
def FlagsEq (g h : GameState) : Prop :=
  g.paused = h.paused ∧ g.gameOver = h.gameOver ∧ g.victory = h.victory ∧ g.time = h.time

lemma flagsEq_refl (g : GameState) : FlagsEq g g := ⟨rfl, rfl, rfl, rfl⟩

lemma flagsEq_trans {g h i : GameState} (a : FlagsEq g h) (b : FlagsEq h i) : FlagsEq g i :=
  ⟨a.1.trans b.1, a.2.1.trans b.2.1, a.2.2.1.trans b.2.2.1, a.2.2.2.trans b.2.2.2⟩

lemma collectToken_flags (ps : Player) (gs : GameState) (t : Token) :
    FlagsEq (collectToken ps gs t).gs gs ∧ (collectToken ps gs t).gs.screenShake = gs.screenShake := by
  unfold collectToken
  dsimp only
  split <;> exact ⟨⟨rfl, rfl, rfl, rfl⟩, rfl⟩

lemma tokensGo_flags (ps : Player) (ts : List Token) (gs : GameState) :
    FlagsEq (tokensGo ps ts gs).2.1 gs ∧ (tokensGo ps ts gs).2.1.screenShake = gs.screenShake := by
  induction ts generalizing gs with
  | nil => exact ⟨flagsEq_refl gs, rfl⟩
  | cons t ts ih =>
    have h1 := collectToken_flags ps gs t
    have h2 := ih (collectToken ps gs t).gs
    exact ⟨flagsEq_trans h2.1 h1.1, h2.2.trans h1.2⟩

lemma updateTokens_player (ps : Player) (w : World) :
    (updateTokens ps w).player = w.player := by
  unfold updateTokens
  rw [applyBursts_player]

lemma updateTokens_flags (ps : Player) (w : World) :
    FlagsEq (updateTokens ps w).gameState w.gameState ∧
      (updateTokens ps w).gameState.screenShake = w.gameState.screenShake := by
  unfold updateTokens
  rw [applyBursts_gameState]
  exact tokensGo_flags ps w.tokens w.gameState

lemma updateTokens_platforms (ps : Player) (w : World) :
    (updateTokens ps w).platforms = w.platforms := by
  unfold updateTokens
  rw [applyBursts_platforms]

lemma updateTokens_enemies (ps : Player) (w : World) :
    (updateTokens ps w).enemies = w.enemies := by
  unfold updateTokens
  rw [applyBursts_enemies]

lemma updateTokens_powerUps (ps : Player) (w : World) :
    (updateTokens ps w).powerUps = w.powerUps := by
  unfold updateTokens
  rw [applyBursts_powerUps]

lemma collectPowerUp_flags (ps : Player) (gs : GameState) (pu : PowerUp) :
    FlagsEq (collectPowerUp ps gs pu).gs gs ∧
      (collectPowerUp ps gs pu).gs.screenShake = gs.screenShake := by
  unfold collectPowerUp
  dsimp only
  split <;> exact ⟨⟨rfl, rfl, rfl, rfl⟩, rfl⟩

lemma powerUpsGo_flags (ps : Player) (pus : List PowerUp) (gs : GameState) :
    FlagsEq (powerUpsGo ps pus gs).2.1 gs ∧
      (powerUpsGo ps pus gs).2.1.screenShake = gs.screenShake := by
  induction pus generalizing gs with
  | nil => exact ⟨flagsEq_refl gs, rfl⟩
  | cons pu pus ih =>
    have h1 := collectPowerUp_flags ps gs pu
    have h2 := ih (collectPowerUp ps gs pu).gs
    exact ⟨flagsEq_trans h2.1 h1.1, h2.2.trans h1.2⟩

lemma updatePowerUps_player (ps : Player) (w : World) :
    (updatePowerUps ps w).player = w.player := by
  unfold updatePowerUps
  rw [applyBursts_player]

lemma updatePowerUps_flags (ps : Player) (w : World) :
    FlagsEq (updatePowerUps ps w).gameState w.gameState ∧
      (updatePowerUps ps w).gameState.screenShake = w.gameState.screenShake := by
  unfold updatePowerUps
  rw [applyBursts_gameState]
  exact powerUpsGo_flags ps w.powerUps w.gameState

lemma updateParticles_player (w : World) : (updateParticles w).player = w.player := rfl

lemma updateParticles_gameState (w : World) :
    (updateParticles w).gameState = w.gameState := rfl

lemma renderEffect_player (w : World) : (renderEffect w).player = w.player := by
  unfold renderEffect
  split <;> rfl

lemma renderEffect_flags (w : World) : FlagsEq (renderEffect w).gameState w.gameState := by
  unfold renderEffect
  split <;> exact ⟨rfl, rfl, rfl, rfl⟩

lemma enemyHit_pc (ps pc : Player) (gs : GameState) (e : Enemy) :
    ((enemyHit ps pc gs e).pc.dashCooldown = pc.dashCooldown) ∧
      ((enemyHit ps pc gs e).pc.health ≤ pc.health) ∧
      ((enemyHit ps pc gs e).pc.invulnerable = pc.invulnerable ∨
        (enemyHit ps pc gs e).pc.invulnerable = 120) := by
  unfold enemyHit
  split
  · split
    · exact ⟨rfl, le_refl _, Or.inl rfl⟩
    · exact ⟨rfl, by simp, Or.inr rfl⟩
  · exact ⟨rfl, le_refl _, Or.inl rfl⟩

lemma enemyHit_flags (ps pc : Player) (gs : GameState) (e : Enemy) :
    FlagsEq (enemyHit ps pc gs e).gs gs := by
  unfold enemyHit
  split
  · split <;> exact ⟨rfl, rfl, rfl, rfl⟩
  · exact flagsEq_refl gs

lemma updateEnemy_pc (sinq : ℚ → ℚ) (ps pc : Player) (gs : GameState) (rs : List ℚ)
    (e : Enemy) :
    ((updateEnemy sinq ps pc gs rs e).1.dashCooldown = pc.dashCooldown) ∧
      ((updateEnemy sinq ps pc gs rs e).1.health ≤ pc.health) ∧
      ((updateEnemy sinq ps pc gs rs e).1.invulnerable = pc.invulnerable ∨
        (updateEnemy sinq ps pc gs rs e).1.invulnerable = 120) ∧
      FlagsEq (updateEnemy sinq ps pc gs rs e).2.1 gs := by
  unfold updateEnemy
  split
  · exact ⟨rfl, le_refl _, Or.inl rfl, flagsEq_refl gs⟩
  · have h1 := enemyHit_pc ps pc gs (moveEnemy sinq (animEnemy e) rs).1
    have h2 := enemyHit_flags ps pc gs (moveEnemy sinq (animEnemy e) rs).1
    exact ⟨h1.1, h1.2.1, h1.2.2, h2⟩

lemma enemiesGo_pc (sinq : ℚ → ℚ) (ps : Player) (es : List Enemy) (pc : Player)
    (gs : GameState) (rs : List ℚ) :
    ((enemiesGo sinq ps es pc gs rs).2.1.dashCooldown = pc.dashCooldown) ∧
      ((enemiesGo sinq ps es pc gs rs).2.1.health ≤ pc.health) ∧
      ((enemiesGo sinq ps es pc gs rs).2.1.invulnerable = pc.invulnerable ∨
        (enemiesGo sinq ps es pc gs rs).2.1.invulnerable = 120) ∧
      FlagsEq (enemiesGo sinq ps es pc gs rs).2.2.1 gs := by
  induction es generalizing pc gs rs with
  | nil => exact ⟨rfl, le_refl _, Or.inl rfl, flagsEq_refl gs⟩
  | cons e es ih =>
    have h1 := updateEnemy_pc sinq ps pc gs rs e
    have h2 := ih (updateEnemy sinq ps pc gs rs e).1 (updateEnemy sinq ps pc gs rs e).2.1
      (updateEnemy sinq ps pc gs rs e).2.2.1
    refine ⟨h2.1.trans h1.1, h2.2.1.trans h1.2.1, ?_, flagsEq_trans h2.2.2.2 h1.2.2.2⟩
    rcases h2.2.2.1 with h | h
    · rcases h1.2.2.1 with h1x | h1x
      · exact Or.inl (h.trans h1x)
      · exact Or.inr (h.trans h1x)
    · exact Or.inr h

lemma updateEnemies_player (sinq : ℚ → ℚ) (ps : Player) (w : World) :
    ((updateEnemies sinq ps w).player.dashCooldown = w.player.dashCooldown) ∧
      ((updateEnemies sinq ps w).player.health ≤ w.player.health) ∧
      ((updateEnemies sinq ps w).player.invulnerable = w.player.invulnerable ∨
        (updateEnemies sinq ps w).player.invulnerable = 120) := by
  unfold updateEnemies
  rw [applyBursts_player]
  have h := enemiesGo_pc sinq ps w.enemies w.player w.gameState w.rand
  exact ⟨h.1, h.2.1, h.2.2.1⟩

lemma updateEnemies_flags (sinq : ℚ → ℚ) (ps : Player) (w : World) :
    FlagsEq (updateEnemies sinq ps w).gameState w.gameState := by
  unfold updateEnemies
  rw [applyBursts_gameState]
  exact (enemiesGo_pc sinq ps w.enemies w.player w.gameState w.rand).2.2.2

lemma animStep_frame (p : Player) :
    (animStep p).health = p.health ∧ (animStep p).dashCooldown = p.dashCooldown ∧
      (animStep p).invulnerable = p.invulnerable ∧
      (animStep p).hasDoubleJumped = p.hasDoubleJumped ∧
      (animStep p).coyoteTime = p.coyoteTime ∧ (animStep p).onGround = p.onGround := by
  unfold animStep
  dsimp only
  repeat' split
  all_goals exact ⟨rfl, rfl, rfl, rfl, rfl, rfl⟩

lemma horizStep_frame (k : Keys) (p : Player) :
    (horizStep k p).health = p.health ∧ (horizStep k p).dashCooldown = p.dashCooldown ∧
      (horizStep k p).invulnerable = p.invulnerable ∧
      (horizStep k p).hasDoubleJumped = p.hasDoubleJumped ∧
      (horizStep k p).coyoteTime = p.coyoteTime ∧ (horizStep k p).onGround = p.onGround := by
  unfold horizStep
  dsimp only
  repeat' split
  all_goals exact ⟨rfl, rfl, rfl, rfl, rfl, rfl⟩

lemma coyoteStep_frame (p : Player) :
    (coyoteStep p).health = p.health ∧ (coyoteStep p).dashCooldown = p.dashCooldown ∧
      (coyoteStep p).invulnerable = p.invulnerable ∧ (coyoteStep p).onGround = p.onGround := by
  unfold coyoteStep
  repeat' split
  all_goals exact ⟨rfl, rfl, rfl, rfl⟩

lemma coyoteStep_airborne (p : Player) (h : p.onGround = false) (hc : p.coyoteTime = 0) :
    coyoteStep p = p := by
  unfold coyoteStep
  rw [h, hc]
  simp

lemma bufferStep_frame (p : Player) :
    (bufferStep p).health = p.health ∧ (bufferStep p).dashCooldown = p.dashCooldown ∧
      (bufferStep p).invulnerable = p.invulnerable ∧
      (bufferStep p).hasDoubleJumped = p.hasDoubleJumped ∧
      (bufferStep p).coyoteTime = p.coyoteTime ∧ (bufferStep p).onGround = p.onGround := by
  unfold bufferStep
  split
  all_goals exact ⟨rfl, rfl, rfl, rfl, rfl, rfl⟩

lemma jumpStep_frame (p : Player) :
    (jumpStep p).health = p.health ∧ (jumpStep p).dashCooldown = p.dashCooldown ∧
      (jumpStep p).invulnerable = p.invulnerable := by
  unfold jumpStep
  dsimp only
  repeat' split
  all_goals exact ⟨rfl, rfl, rfl⟩

/-- A press with the double jump already used and coyote time exhausted never
fires the jump branch. -/
lemma jumpStep_noop (p : Player) (hc : p.coyoteTime ≤ 0) (hd : p.hasDoubleJumped = true) :
    jumpStep p = p := by
  unfold jumpStep
  rw [if_neg]
  rintro ⟨-, h | ⟨h, -⟩⟩
  · omega
  · rw [hd] at h
    exact h rfl

lemma varJumpStep_frame (k : Keys) (p : Player) :
    (varJumpStep k p).health = p.health ∧ (varJumpStep k p).dashCooldown = p.dashCooldown ∧
      (varJumpStep k p).invulnerable = p.invulnerable ∧
      (varJumpStep k p).hasDoubleJumped = p.hasDoubleJumped ∧
      (varJumpStep k p).coyoteTime = p.coyoteTime ∧ (varJumpStep k p).onGround = p.onGround := by
  unfold varJumpStep
  dsimp only
  split
  all_goals exact ⟨rfl, rfl, rfl, rfl, rfl, rfl⟩

lemma dashStep_frame (k : Keys) (p : Player) :
    (dashStep k p).1.health = p.health ∧ (dashStep k p).1.invulnerable = p.invulnerable ∧
      (dashStep k p).1.hasDoubleJumped = p.hasDoubleJumped ∧
      (dashStep k p).1.coyoteTime = p.coyoteTime ∧ (dashStep k p).1.onGround = p.onGround := by
  unfold dashStep
  split
  all_goals exact ⟨rfl, rfl, rfl, rfl, rfl⟩

lemma dashStep_cooldown (k : Keys) (p : Player) :
    (dashStep k p).1.dashCooldown =
      if k.shift = true ∧ p.dashCooldown ≤ 0 then 60 else p.dashCooldown := by
  unfold dashStep
  split
  all_goals rfl

lemma gravityStep_frame (p : Player) :
    (gravityStep p).health = p.health ∧ (gravityStep p).dashCooldown = p.dashCooldown ∧
      (gravityStep p).invulnerable = p.invulnerable ∧
      (gravityStep p).hasDoubleJumped = p.hasDoubleJumped ∧
      (gravityStep p).coyoteTime = p.coyoteTime ∧ (gravityStep p).onGround = p.onGround := by
  unfold gravityStep
  split
  all_goals exact ⟨rfl, rfl, rfl, rfl, rfl, rfl⟩

lemma integrateStep_frame (p : Player) :
    (integrateStep p).health = p.health ∧ (integrateStep p).dashCooldown = p.dashCooldown ∧
      (integrateStep p).invulnerable = p.invulnerable ∧
      (integrateStep p).hasDoubleJumped = p.hasDoubleJumped ∧
      (integrateStep p).coyoteTime = p.coyoteTime ∧ (integrateStep p).onGround = p.onGround :=
  ⟨rfl, rfl, rfl, rfl, rfl, rfl⟩

lemma resolveCollision_frame (wog : Bool) (pf : Platform) (p : Player) :
    (resolveCollision wog pf p).1.health = p.health ∧
      (resolveCollision wog pf p).1.dashCooldown = p.dashCooldown ∧
      (resolveCollision wog pf p).1.invulnerable = p.invulnerable ∧
      (resolveCollision wog pf p).1.hasDoubleJumped = p.hasDoubleJumped ∧
      (resolveCollision wog pf p).1.coyoteTime = p.coyoteTime := by
  unfold resolveCollision
  repeat' split
  all_goals exact ⟨rfl, rfl, rfl, rfl, rfl⟩

lemma platsGo_frame (wog : Bool) (pfs : List Platform) (p : Player) :
    (platsGo wog pfs p).1.health = p.health ∧
      (platsGo wog pfs p).1.dashCooldown = p.dashCooldown ∧
      (platsGo wog pfs p).1.invulnerable = p.invulnerable ∧
      (platsGo wog pfs p).1.hasDoubleJumped = p.hasDoubleJumped ∧
      (platsGo wog pfs p).1.coyoteTime = p.coyoteTime := by
  induction pfs generalizing p with
  | nil => exact ⟨rfl, rfl, rfl, rfl, rfl⟩
  | cons pf pfs ih =>
    have h1 := resolveCollision_frame wog (movePlat pf) p
    have h2 := ih (resolveCollision wog (movePlat pf) p).1
    exact ⟨h2.1.trans h1.1, h2.2.1.trans h1.2.1, h2.2.2.1.trans h1.2.2.1,
      h2.2.2.2.1.trans h1.2.2.2.1, h2.2.2.2.2.trans h1.2.2.2.2⟩

lemma boundsStep_frame (p : Player) :
    (boundsStep p).1.dashCooldown = p.dashCooldown ∧
      (boundsStep p).1.hasDoubleJumped = p.hasDoubleJumped ∧
      (boundsStep p).1.coyoteTime = p.coyoteTime ∧
      (boundsStep p).1.onGround = p.onGround := by
  unfold boundsStep
  dsimp only
  repeat' split
  all_goals exact ⟨rfl, rfl, rfl, rfl⟩

/-- The fall branch of `boundsStep` is the only place it touches health and
invulnerability. -/
lemma boundsStep_spec (p : Player) :
    ((boundsStep p).2 = true ∧ (boundsStep p).1.health = p.health - 1 ∧
        (boundsStep p).1.invulnerable = 120) ∨
      ((boundsStep p).2 = false ∧ (boundsStep p).1.health = p.health ∧
        (boundsStep p).1.invulnerable = p.invulnerable) := by
  unfold boundsStep
  dsimp only
  repeat' split
  all_goals first
    | exact Or.inl ⟨rfl, rfl, rfl⟩
    | exact Or.inr ⟨rfl, rfl, rfl⟩

lemma cooldownStep_frame (p : Player) :
    (cooldownStep p).health = p.health ∧ (cooldownStep p).hasDoubleJumped = p.hasDoubleJumped ∧
      (cooldownStep p).coyoteTime = p.coyoteTime ∧ (cooldownStep p).onGround = p.onGround := by
  unfold cooldownStep
  dsimp only
  repeat' split
  all_goals exact ⟨rfl, rfl, rfl, rfl⟩

lemma cooldownStep_counters (p : Player) :
    (cooldownStep p).dashCooldown = (if p.dashCooldown > 0 then p.dashCooldown - 1 else p.dashCooldown) ∧
      (cooldownStep p).invulnerable =
        (if p.invulnerable > 0 then p.invulnerable - 1 else p.invulnerable) := by
  unfold cooldownStep
  dsimp only
  repeat' split
  all_goals exact ⟨rfl, rfl⟩

lemma prePlat_eq (k : Keys) (p : Player) :
    (prePlat k p).1 =
      integrateStep (gravityStep (dashStep k (varJumpStep k (jumpStep (bufferStep
        (coyoteStep (horizStep k (animStep p))))))).1) := rfl

lemma playerPhysics_player (k : Keys) (plats : List Platform) (p : Player) :
    (playerPhysics k plats p).player =
      cooldownStep (boundsStep (platsGo (prePlat k p).1.onGround plats
        { (prePlat k p).1 with onGround := false }).1).1 := rfl

lemma playerPhysics_fell (k : Keys) (plats : List Platform) (p : Player) :
    (playerPhysics k plats p).fell =
      (boundsStep (platsGo (prePlat k p).1.onGround plats
        { (prePlat k p).1 with onGround := false }).1).2 := rfl

lemma prePlat_counters (k : Keys) (p : Player) :
    (prePlat k p).1.health = p.health ∧
      (prePlat k p).1.invulnerable = p.invulnerable ∧
      (prePlat k p).1.dashCooldown =
        (if k.shift = true ∧ p.dashCooldown ≤ 0 then 60 else p.dashCooldown) := by
  obtain ⟨a1h, a1cd, a1inv, -, -, -⟩ := animStep_frame p
  obtain ⟨a2h, a2cd, a2inv, -, -, -⟩ := horizStep_frame k (animStep p)
  obtain ⟨a3h, a3cd, a3inv, -⟩ := coyoteStep_frame (horizStep k (animStep p))
  obtain ⟨a4h, a4cd, a4inv, -, -, -⟩ := bufferStep_frame (coyoteStep (horizStep k (animStep p)))
  obtain ⟨a5h, a5cd, a5inv⟩ := jumpStep_frame (bufferStep (coyoteStep (horizStep k (animStep p))))
  obtain ⟨a6h, a6cd, a6inv, -, -, -⟩ :=
    varJumpStep_frame k (jumpStep (bufferStep (coyoteStep (horizStep k (animStep p)))))
  obtain ⟨a7h, a7inv, -, -, -⟩ :=
    dashStep_frame k (varJumpStep k (jumpStep (bufferStep (coyoteStep (horizStep k (animStep p))))))
  have a7cd :=
    dashStep_cooldown k (varJumpStep k (jumpStep (bufferStep (coyoteStep (horizStep k (animStep p))))))
  obtain ⟨a8h, a8cd, a8inv, -, -, -⟩ :=
    gravityStep_frame (dashStep k (varJumpStep k (jumpStep (bufferStep
      (coyoteStep (horizStep k (animStep p))))))).1
  rw [prePlat_eq]
  refine ⟨?_, ?_, ?_⟩
  · rw [show (integrateStep (gravityStep (dashStep k (varJumpStep k (jumpStep (bufferStep
      (coyoteStep (horizStep k (animStep p))))))).1)).health =
        (gravityStep (dashStep k (varJumpStep k (jumpStep (bufferStep
      (coyoteStep (horizStep k (animStep p))))))).1).health from rfl]
    rw [a8h, a7h, a6h, a5h, a4h, a3h, a2h, a1h]
  · rw [show (integrateStep (gravityStep (dashStep k (varJumpStep k (jumpStep (bufferStep
      (coyoteStep (horizStep k (animStep p))))))).1)).invulnerable =
        (gravityStep (dashStep k (varJumpStep k (jumpStep (bufferStep
      (coyoteStep (horizStep k (animStep p))))))).1).invulnerable from rfl]
    rw [a8inv, a7inv, a6inv, a5inv, a4inv, a3inv, a2inv, a1inv]
  · rw [show (integrateStep (gravityStep (dashStep k (varJumpStep k (jumpStep (bufferStep
      (coyoteStep (horizStep k (animStep p))))))).1)).dashCooldown =
        (gravityStep (dashStep k (varJumpStep k (jumpStep (bufferStep
      (coyoteStep (horizStep k (animStep p))))))).1).dashCooldown from rfl]
    rw [a8cd, a7cd, a6cd, a5cd, a4cd, a3cd, a2cd, a1cd]

lemma playerPhysics_dashCooldown (k : Keys) (plats : List Platform) (p : Player) :
    (playerPhysics k plats p).player.dashCooldown =
      if k.shift = true ∧ p.dashCooldown ≤ 0 then 59
      else if p.dashCooldown > 0 then p.dashCooldown - 1 else p.dashCooldown := by
  rw [playerPhysics_player]
  set q := (prePlat k p).1 with hq
  set q10 : Player := { q with onGround := false } with hq10
  set q11 := (platsGo q.onGround plats q10).1 with hq11
  set q12 := (boundsStep q11).1 with hq12
  rw [(cooldownStep_counters q12).1, (boundsStep_frame q11).1,
    (platsGo_frame q.onGround plats q10).2.1,
    show q10.dashCooldown = q.dashCooldown from rfl, hq, (prePlat_counters k p).2.2]
  by_cases hc : k.shift = true ∧ p.dashCooldown ≤ 0
  · rw [if_pos hc, if_pos hc]
    norm_num
  · rw [if_neg hc, if_neg hc]

lemma playerPhysics_invulnerable (k : Keys) (plats : List Platform) (p : Player) :
    (playerPhysics k plats p).player.invulnerable = 119 ∨
      (playerPhysics k plats p).player.invulnerable =
        (if p.invulnerable > 0 then p.invulnerable - 1 else p.invulnerable) := by
  rw [playerPhysics_player]
  set q := (prePlat k p).1 with hq
  set q10 : Player := { q with onGround := false } with hq10
  set q11 := (platsGo q.onGround plats q10).1 with hq11
  set q12 := (boundsStep q11).1 with hq12
  rw [(cooldownStep_counters q12).2]
  rcases boundsStep_spec q11 with ⟨-, -, h⟩ | ⟨-, -, h⟩
  · left
    rw [hq12, h]
    norm_num
  · right
    rw [hq12, h, (platsGo_frame q.onGround plats q10).2.2.1,
      show q10.invulnerable = q.invulnerable from rfl, hq, (prePlat_counters k p).2.1]

lemma playerPhysics_health (k : Keys) (plats : List Platform) (p : Player) :
    (playerPhysics k plats p).player.health ≤ p.health := by
  rw [playerPhysics_player]
  set q := (prePlat k p).1 with hq
  set q10 : Player := { q with onGround := false } with hq10
  set q11 := (platsGo q.onGround plats q10).1 with hq11
  set q12 := (boundsStep q11).1 with hq12
  rw [(cooldownStep_frame q12).1]
  have hq11h : q11.health = p.health := by
    rw [hq11, (platsGo_frame q.onGround plats q10).1,
      show q10.health = q.health from rfl, hq, (prePlat_counters k p).1]
  rcases boundsStep_spec q11 with ⟨-, h, -⟩ | ⟨-, h, -⟩ <;> rw [hq12] at * <;> omega

lemma prePlat_dj (k : Keys) (p : Player) (hg : p.onGround = false)
    (hd : p.hasDoubleJumped = true) (hc : p.coyoteTime = 0) :
    (prePlat k p).1.hasDoubleJumped = true ∧ (prePlat k p).1.coyoteTime = 0 := by
  obtain ⟨-, -, -, a1dj, a1cy, a1og⟩ := animStep_frame p
  obtain ⟨-, -, -, a2dj, a2cy, a2og⟩ := horizStep_frame k (animStep p)
  have hog2 : (horizStep k (animStep p)).onGround = false := by rw [a2og, a1og, hg]
  have hcy2 : (horizStep k (animStep p)).coyoteTime = 0 := by rw [a2cy, a1cy, hc]
  have hdj2 : (horizStep k (animStep p)).hasDoubleJumped = true := by rw [a2dj, a1dj, hd]
  have e3 : coyoteStep (horizStep k (animStep p)) = horizStep k (animStep p) :=
    coyoteStep_airborne _ hog2 hcy2
  obtain ⟨-, -, -, a4dj, a4cy, -⟩ := bufferStep_frame (horizStep k (animStep p))
  have e5 : jumpStep (bufferStep (horizStep k (animStep p))) =
      bufferStep (horizStep k (animStep p)) :=
    jumpStep_noop _ (by rw [a4cy, hcy2]) (by rw [a4dj, hdj2])
  obtain ⟨-, -, -, a6dj, a6cy, -⟩ := varJumpStep_frame k (bufferStep (horizStep k (animStep p)))
  obtain ⟨-, -, a7dj, a7cy, -⟩ :=
    dashStep_frame k (varJumpStep k (bufferStep (horizStep k (animStep p))))
  obtain ⟨-, -, -, a8dj, a8cy, -⟩ :=
    gravityStep_frame (dashStep k (varJumpStep k (bufferStep (horizStep k (animStep p))))).1
  obtain ⟨-, -, -, a9dj, a9cy, -⟩ :=
    integrateStep_frame (gravityStep (dashStep k (varJumpStep k (bufferStep
      (horizStep k (animStep p))))).1)
  rw [prePlat_eq, e3, e5]
  constructor
  · rw [a9dj, a8dj, a7dj, a6dj, a4dj, hdj2]
  · rw [a9cy, a8cy, a7cy, a6cy, a4cy, hcy2]

lemma playerPhysics_dj (k : Keys) (plats : List Platform) (p : Player) (hg : p.onGround = false)
    (hd : p.hasDoubleJumped = true) (hc : p.coyoteTime = 0) :
    (playerPhysics k plats p).player.hasDoubleJumped = true ∧
      (playerPhysics k plats p).player.coyoteTime = 0 := by
  rw [playerPhysics_player]
  set q := (prePlat k p).1 with hq
  set q10 : Player := { q with onGround := false } with hq10
  set q11 := (platsGo q.onGround plats q10).1 with hq11
  set q12 := (boundsStep q11).1 with hq12
  have hpre := prePlat_dj k p hg hd hc
  constructor
  · rw [(cooldownStep_frame q12).2.1, hq12, (boundsStep_frame q11).2.1, hq11,
      (platsGo_frame q.onGround plats q10).2.2.2.1,
      show q10.hasDoubleJumped = q.hasDoubleJumped from rfl, hq, hpre.1]
  · rw [(cooldownStep_frame q12).2.2.1, hq12, (boundsStep_frame q11).2.2.1, hq11,
      (platsGo_frame q.onGround plats q10).2.2.2.2,
      show q10.coyoteTime = q.coyoteTime from rfl, hq, hpre.2]

lemma updatePlayer_flags (k : Keys) (w : World) :
    FlagsEq (updatePlayer k w).gameState w.gameState := by
  unfold updatePlayer
  split
  · exact flagsEq_refl _
  · dsimp only
    split
    · refine ⟨?_, ?_, ?_, ?_⟩ <;>
        simp only [applyBursts_gameState]
    · rw [applyBursts_gameState]
      exact flagsEq_refl _

lemma updatePlayer_player (k : Keys) (w : World) :
    (updatePlayer k w).player =
      (if w.gameState.paused || w.gameState.gameOver then w.player
        else (playerPhysics k w.platforms w.player).player) := by
  unfold updatePlayer
  split
  · rfl
  · dsimp only
    split
    · exact applyBursts_player _ _
    · exact applyBursts_player _ _

lemma updatePlayer_go (k : Keys) (w : World) (hp : w.gameState.paused = false)
    (hg : w.gameState.gameOver = false) :
    (updatePlayer k w).player = (playerPhysics k w.platforms w.player).player := by
  rw [updatePlayer_player, hp, hg]
  simp

lemma updatePlayer_health (k : Keys) (w : World) :
    (updatePlayer k w).player.health ≤ w.player.health := by
  rw [updatePlayer_player]
  split
  · exact le_refl _
  · exact playerPhysics_health k w.platforms w.player

lemma updatePhase_gs (sinq : ℚ → ℚ) (k : Keys) (w : World) :
    (updatePhase sinq k w).gameState.victory =
        (if w.player.x ≥ 1150 ∧ w.player.y ≥ 450 then true else w.gameState.victory) ∧
      (updatePhase sinq k w).gameState.gameOver =
        (if w.player.health ≤ 0 then true else w.gameState.gameOver) ∧
      (updatePhase sinq k w).gameState.paused = w.gameState.paused := by
  have h1 := updatePlayer_flags k w
  have h2 := (updateTokens_flags w.player (updatePlayer k w)).1
  have h3 := updateEnemies_flags sinq w.player (updateTokens w.player (updatePlayer k w))
  have h4 := (updatePowerUps_flags w.player (updateEnemies sinq w.player
    (updateTokens w.player (updatePlayer k w)))).1
  have hc : FlagsEq (updateParticles (updatePowerUps w.player (updateEnemies sinq w.player
      (updateTokens w.player (updatePlayer k w))))).gameState w.gameState := by
    rw [updateParticles_gameState]
    exact flagsEq_trans (flagsEq_trans (flagsEq_trans h4 h3) h2) h1
  obtain ⟨hcp, hcg, hcv, hct⟩ := hc
  unfold updatePhase
  dsimp only
  refine ⟨?_, ?_, ?_⟩ <;>
    by_cases c2 : w.player.health ≤ 0 <;>
    by_cases c1 : w.player.x ≥ 1150 ∧ w.player.y ≥ 450 <;>
    simp [c1, c2, hcp, hcg, hcv]

lemma updatePhase_time (sinq : ℚ → ℚ) (k : Keys) (w : World) :
    (updatePhase sinq k w).gameState.time = w.gameState.time + 1 / 60 := by
  have h1 := updatePlayer_flags k w
  have h2 := (updateTokens_flags w.player (updatePlayer k w)).1
  have h3 := updateEnemies_flags sinq w.player (updateTokens w.player (updatePlayer k w))
  have h4 := (updatePowerUps_flags w.player (updateEnemies sinq w.player
    (updateTokens w.player (updatePlayer k w)))).1
  have hc : FlagsEq (updateParticles (updatePowerUps w.player (updateEnemies sinq w.player
      (updateTokens w.player (updatePlayer k w))))).gameState w.gameState := by
    rw [updateParticles_gameState]
    exact flagsEq_trans (flagsEq_trans (flagsEq_trans h4 h3) h2) h1
  obtain ⟨-, -, -, hct⟩ := hc
  unfold updatePhase
  dsimp only
  by_cases c2 : w.player.health ≤ 0 <;>
    by_cases c1 : w.player.x ≥ 1150 ∧ w.player.y ≥ 450 <;>
    simp [c1, c2, hct]

lemma updatePhase_player (sinq : ℚ → ℚ) (k : Keys) (w : World) :
    (updatePhase sinq k w).player =
      (updateEnemies sinq w.player (updateTokens w.player (updatePlayer k w))).player := by
  unfold updatePhase
  dsimp only
  rw [updateParticles_player, updatePowerUps_player]

lemma updatePhase_health (sinq : ℚ → ℚ) (k : Keys) (w : World) :
    (updatePhase sinq k w).player.health ≤ w.player.health := by
  rw [updatePhase_player]
  have h1 := (updateEnemies_player sinq w.player
    (updateTokens w.player (updatePlayer k w))).2.1
  rw [updateTokens_player] at h1
  exact h1.trans (updatePlayer_health k w)

lemma gameLoop_player (sinq : ℚ → ℚ) (k : Keys) (w : World) :
    (gameLoop sinq k w).player =
      (if !w.gameState.paused && !w.gameState.gameOver then updatePhase sinq k w else w).player := by
  unfold gameLoop
  dsimp only
  rw [renderEffect_player]

lemma gate_iff (w : World) :
    (!w.gameState.paused && !w.gameState.gameOver) = true ↔
      (w.gameState.paused = false ∧ w.gameState.gameOver = false) := by
  cases hp : w.gameState.paused <;> cases hg : w.gameState.gameOver <;> simp

lemma gameLoop_gsflags (sinq : ℚ → ℚ) (k : Keys) (w : World) :
    FlagsEq (gameLoop sinq k w).gameState
      (if !w.gameState.paused && !w.gameState.gameOver then updatePhase sinq k w
        else w).gameState := by
  unfold gameLoop
  dsimp only
  exact renderEffect_flags _

lemma updatePhase_counters (sinq : ℚ → ℚ) (k : Keys) (w : World)
    (hp : w.gameState.paused = false) (hg : w.gameState.gameOver = false) :
    (updatePhase sinq k w).player.dashCooldown =
        (if k.shift = true ∧ w.player.dashCooldown ≤ 0 then 59
          else if w.player.dashCooldown > 0 then w.player.dashCooldown - 1
          else w.player.dashCooldown) ∧
      ((updatePhase sinq k w).player.invulnerable = 119 ∨
        (updatePhase sinq k w).player.invulnerable = 120 ∨
        (updatePhase sinq k w).player.invulnerable =
          (if w.player.invulnerable > 0 then w.player.invulnerable - 1
            else w.player.invulnerable)) := by
  rw [updatePhase_player]
  have hE := updateEnemies_player sinq w.player (updateTokens w.player (updatePlayer k w))
  rw [updateTokens_player] at hE
  constructor
  · rw [hE.1, updatePlayer_go k w hp hg, playerPhysics_dashCooldown]
  · rcases hE.2.2 with h | h
    · rw [h, updatePlayer_go k w hp hg]
      rcases playerPhysics_invulnerable k w.platforms w.player with h2 | h2
      · exact Or.inl h2
      · exact Or.inr (Or.inr h2)
    · exact Or.inr (Or.inl h)

/-- C10: the axis-aligned bounding-box overlap test is symmetric: for all
rectangles `a` and `b` with positive width and height, `checkCollision a b`
returns the same boolean as `checkCollision b a`. -/
theorem c10_checkCollision_symm (a b : Rect) (ha : 0 < a.width) (hb : 0 < a.height)
    (hc : 0 < b.width) (hd : 0 < b.height) :
    checkCollision a b = checkCollision b a := by
  unfold checkCollision
  rw [Bool.eq_iff_iff]
  simp only [Bool.and_eq_true, decide_eq_true_eq, gt_iff_lt]
  constructor <;> rintro ⟨⟨⟨h1, h2⟩, h3⟩, h4⟩ <;> exact ⟨⟨⟨h2, h1⟩, h4⟩, h3⟩

/-- Witness for C10 at concrete overlapping rectangles. -/
theorem c10_checkCollision_symm_w :
    0 < (⟨0, 0, 10, 10⟩ : Rect).width ∧
      checkCollision ⟨0, 0, 10, 10⟩ ⟨5, 5, 10, 10⟩ =
        checkCollision ⟨5, 5, 10, 10⟩ ⟨0, 0, 10, 10⟩ :=
  ⟨by decide,
    c10_checkCollision_symm ⟨0, 0, 10, 10⟩ ⟨5, 5, 10, 10⟩
      (by decide) (by decide) (by decide) (by decide)⟩

/-- C7: across every tick of the simulation the player's health never
increases; the explicit reset restores it to 3. -/
theorem c7_health_never_increases :
    (∀ (sinq : ℚ → ℚ) (k : Keys) (w : World),
        (gameLoop sinq k w).player.health ≤ w.player.health) ∧
      (∀ w : World, (resetGame w).player.health = 3) := by
  constructor
  · intro sinq k w
    rw [gameLoop_player]
    split
    · exact updatePhase_health sinq k w
    · exact le_refl _
  · intro w
    rfl

/-- C1 (counterexample): on a tick where only the victory flag is set (not
paused, not game over), the update phase still runs — the clock advances —
so a victory-terminal tick is not skipped. -/
theorem c1_cex_victory_tick_updates :
    victoryWorld.gameState.victory = true ∧ victoryWorld.gameState.gameOver = false ∧
      victoryWorld.gameState.paused = false ∧
      (gameLoop sinZero noKeys victoryWorld).gameState.time ≠ victoryWorld.gameState.time := by
  refine ⟨rfl, rfl, rfl, ?_⟩
  obtain ⟨-, -, -, hct⟩ := gameLoop_gsflags sinZero noKeys victoryWorld
  rw [hct, if_pos (by rfl), updatePhase_time]
  norm_num [victoryWorld, bareWorld, initGameState]

/-- C1 (amended): on every tick where the session is paused or the game-over
flag is set, the whole update phase is skipped and the tick is exactly the
rendering side effect (screen-shake decay); a tick with only the victory
flag set still runs the update phase. -/
theorem c1_update_skip (sinq : ℚ → ℚ) (k : Keys) (w : World)
    (h : w.gameState.paused = true ∨ w.gameState.gameOver = true) :
    gameLoop sinq k w = renderEffect w := by
  unfold gameLoop
  dsimp only
  rw [if_neg]
  rcases h with h | h <;> simp [h]

/-- Witness for C1 at a concrete game-over world. -/
theorem c1_update_skip_w :
    overWorld.gameState.gameOver = true ∧
      gameLoop sinZero noKeys overWorld = renderEffect overWorld :=
  ⟨rfl, c1_update_skip sinZero noKeys overWorld (Or.inr rfl)⟩

/-- C5: on a non-paused, non-terminal tick the victory flag is set iff the
player satisfies `x ≥ 1150 ∧ y ≥ 450` and the game-over flag is set iff
health ≤ 0 (both read from the tick-start player snapshot, as the loop
does); each flag, once set, survives every later tick; reset clears both. -/
theorem c5_victory_defeat :
    (∀ (sinq : ℚ → ℚ) (k : Keys) (w : World),
        w.gameState.paused = false → w.gameState.gameOver = false →
        w.gameState.victory = false →
        ((gameLoop sinq k w).gameState.victory = true ↔
            (w.player.x ≥ 1150 ∧ w.player.y ≥ 450)) ∧
          ((gameLoop sinq k w).gameState.gameOver = true ↔ w.player.health ≤ 0)) ∧
      (∀ (sinq : ℚ → ℚ) (k : Keys) (w : World), w.gameState.victory = true →
        (gameLoop sinq k w).gameState.victory = true) ∧
      (∀ (sinq : ℚ → ℚ) (k : Keys) (w : World), w.gameState.gameOver = true →
        (gameLoop sinq k w).gameState.gameOver = true) ∧
      (∀ w : World, (resetGame w).gameState.victory = false ∧
        (resetGame w).gameState.gameOver = false) := by
  refine ⟨?_, ?_, ?_, fun w => ⟨rfl, rfl⟩⟩
  · intro sinq k w hp hg hv
    obtain ⟨-, hgo, hvic, -⟩ := gameLoop_gsflags sinq k w
    have hgate : (!w.gameState.paused && !w.gameState.gameOver) = true :=
      (gate_iff w).mpr ⟨hp, hg⟩
    rw [if_pos hgate] at hgo hvic
    have hgs := updatePhase_gs sinq k w
    constructor
    · rw [hvic, hgs.1, hv]
      by_cases c : w.player.x ≥ 1150 ∧ w.player.y ≥ 450 <;> simp [c]
    · rw [hgo, hgs.2.1, hg]
      by_cases c : w.player.health ≤ 0 <;> simp [c]
  · intro sinq k w hv
    obtain ⟨-, -, hvic, -⟩ := gameLoop_gsflags sinq k w
    rw [hvic]
    by_cases hgate : (!w.gameState.paused && !w.gameState.gameOver) = true
    · rw [if_pos hgate, (updatePhase_gs sinq k w).1]
      by_cases c : w.player.x ≥ 1150 ∧ w.player.y ≥ 450 <;> simp [c, hv]
    · rw [if_neg hgate]
      exact hv
  · intro sinq k w hg
    obtain ⟨-, hgo, -, -⟩ := gameLoop_gsflags sinq k w
    rw [hgo, if_neg]
    · exact hg
    · simp [hg]

/-- Witness for C5 at the initial world (away from the goal, full health). -/
theorem c5_victory_defeat_w :
    ((gameLoop sinZero noKeys initWorld).gameState.victory = true ↔
        (initWorld.player.x ≥ 1150 ∧ initWorld.player.y ≥ 450)) ∧
      ((gameLoop sinZero noKeys initWorld).gameState.gameOver = true ↔
        initWorld.player.health ≤ 0) :=
  c5_victory_defeat.1 sinZero noKeys initWorld rfl rfl rfl

/-- C3 (counterexample): the dash-cooldown counter is not monotonically
non-increasing between resets: starting a dash on a tick where the cooldown
is 0 raises it to 60 (observed 59 after the same-tick decrement). -/
theorem c3_cex_dash_raises_cooldown :
    bareWorld.player.dashCooldown = 0 ∧
      (gameLoop sinZero shiftKeys bareWorld).player.dashCooldown = 59 := by
  refine ⟨rfl, ?_⟩
  rw [gameLoop_player, if_pos (by rfl),
    (updatePhase_counters sinZero shiftKeys bareWorld rfl rfl).1,
    if_pos ⟨rfl, by decide⟩]

/-- C3 (amended): on every tick each counter either does not increase or has
just been reset by its triggering event — the dash cooldown to its 60-frame
window (observed 59 after the same-tick decrement), the invulnerability
counter to its 120-frame window (119 when set by the fall branch before the
same-tick decrement, 120 when set by an enemy hit) — and neither counter
ever becomes negative from a non-negative value. -/
theorem c3_counters_amended (sinq : ℚ → ℚ) (k : Keys) (w : World) :
    ((gameLoop sinq k w).player.dashCooldown ≤ w.player.dashCooldown ∨
        (gameLoop sinq k w).player.dashCooldown = 59) ∧
      (0 ≤ w.player.dashCooldown → 0 ≤ (gameLoop sinq k w).player.dashCooldown) ∧
      ((gameLoop sinq k w).player.invulnerable ≤ w.player.invulnerable ∨
        (gameLoop sinq k w).player.invulnerable = 119 ∨
        (gameLoop sinq k w).player.invulnerable = 120) ∧
      (0 ≤ w.player.invulnerable → 0 ≤ (gameLoop sinq k w).player.invulnerable) := by
  rw [gameLoop_player]
  by_cases hgate : (!w.gameState.paused && !w.gameState.gameOver) = true
  · rw [if_pos hgate]
    obtain ⟨hp, hg⟩ := (gate_iff w).mp hgate
    obtain ⟨hcd, hinv⟩ := updatePhase_counters sinq k w hp hg
    refine ⟨?_, ?_, ?_, ?_⟩
    · rw [hcd]
      split_ifs with c1 c2
      · exact Or.inr rfl
      · exact Or.inl (by omega)
      · exact Or.inl (le_refl _)
    · intro h0
      rw [hcd]
      split_ifs with c1 c2 <;> omega
    · rcases hinv with h | h | h
      · exact Or.inr (Or.inl h)
      · exact Or.inr (Or.inr h)
      · rw [h]
        left
        split_ifs with c <;> omega
    · intro h0
      rcases hinv with h | h | h
      · omega
      · omega
      · rw [h]
        split_ifs with c <;> omega
  · rw [if_neg hgate]
    exact ⟨Or.inl (le_refl _), fun h => h, Or.inl (le_refl _), fun h => h⟩

/-- Witness for C3 at the bare world. -/
theorem c3_counters_amended_w :
    ((gameLoop sinZero noKeys bareWorld).player.dashCooldown ≤
        bareWorld.player.dashCooldown ∨
      (gameLoop sinZero noKeys bareWorld).player.dashCooldown = 59) ∧
      0 ≤ (gameLoop sinZero noKeys bareWorld).player.invulnerable :=
  ⟨(c3_counters_amended sinZero noKeys bareWorld).1,
    (c3_counters_amended sinZero noKeys bareWorld).2.2.2 (by decide)⟩

lemma checkCollision_iff (a b : Rect) :
    checkCollision a b = true ↔
      (a.x < b.x + b.width ∧ a.x + a.width > b.x ∧
        a.y < b.y + b.height ∧ a.y + a.height > b.y) := by
  simp [checkCollision, and_assoc]

lemma overlapY_top (pf : Platform) (p1 : Player) (h : p1.y + p1.height = pf.y) :
    overlapY (playerRect p1) (platRect pf) = false := by
  have hn : ¬(p1.y + p1.height > pf.y) := by
    rw [h]
    exact lt_irrefl _
  simp [overlapY, playerRect, platRect, hn]

lemma overlapY_bottom (pf : Platform) (p1 : Player) (h : p1.y = pf.y + pf.height) :
    overlapY (playerRect p1) (platRect pf) = false := by
  have hn : ¬(p1.y < pf.y + pf.height) := by
    rw [h]
    exact lt_irrefl _
  simp [overlapY, playerRect, platRect, hn]

lemma overlapX_left (pf : Platform) (p1 : Player) (h : p1.x + p1.width = pf.x) :
    overlapX (playerRect p1) (platRect pf) = false := by
  have hn : ¬(p1.x + p1.width > pf.x) := by
    rw [h]
    exact lt_irrefl _
  simp [overlapX, playerRect, platRect, hn]

lemma overlapX_right (pf : Platform) (p1 : Player) (h : p1.x = pf.x + pf.width) :
    overlapX (playerRect p1) (platRect pf) = false := by
  have hn : ¬(p1.x < pf.x + pf.width) := by
    rw [h]
    exact lt_irrefl _
  simp [overlapX, playerRect, platRect, hn]

/-- C2 (amended): per overlapping platform per tick, at most one of the four
resolutions is applied — the guards are evaluated in source order and are
mutually exclusive — and whenever one is applied the player's box no longer
overlaps that platform on the resolved axis; but when the velocities match
no guard (vertical guard fails and horizontal velocity is zero), no
resolution is applied at all and the overlap persists. -/
theorem c2_resolution_amended (wog : Bool) (pf : Platform) (p : Player)
    (hov : checkCollision (playerRect p) (platRect pf) = true) :
    ((p.velocityY > 0 ∧ p.y < pf.y) ∧
        overlapY (playerRect (resolveCollision wog pf p).1) (platRect pf) = false) ∨
      (¬(p.velocityY > 0 ∧ p.y < pf.y) ∧ (p.velocityY < 0 ∧ p.y > pf.y) ∧
        overlapY (playerRect (resolveCollision wog pf p).1) (platRect pf) = false) ∨
      (¬(p.velocityY > 0 ∧ p.y < pf.y) ∧ ¬(p.velocityY < 0 ∧ p.y > pf.y) ∧ p.velocityX > 0 ∧
        overlapX (playerRect (resolveCollision wog pf p).1) (platRect pf) = false) ∨
      (¬(p.velocityY > 0 ∧ p.y < pf.y) ∧ ¬(p.velocityY < 0 ∧ p.y > pf.y) ∧ p.velocityX < 0 ∧
        overlapX (playerRect (resolveCollision wog pf p).1) (platRect pf) = false) ∨
      (¬(p.velocityY > 0 ∧ p.y < pf.y) ∧ ¬(p.velocityY < 0 ∧ p.y > pf.y) ∧ p.velocityX = 0 ∧
        (resolveCollision wog pf p).1 = p) := by
  unfold resolveCollision
  rw [if_pos hov]
  by_cases h1 : p.velocityY > 0 ∧ p.y < pf.y
  · rw [if_pos h1]
    exact Or.inl ⟨h1, overlapY_top pf _ (show pf.y - p.height + p.height = pf.y by ring)⟩
  · rw [if_neg h1]
    by_cases h2 : p.velocityY < 0 ∧ p.y > pf.y
    · rw [if_pos h2]
      exact Or.inr (Or.inl ⟨h1, h2, overlapY_bottom pf _ rfl⟩)
    · rw [if_neg h2]
      by_cases h3 : p.velocityX > 0
      · rw [if_pos h3]
        exact Or.inr (Or.inr (Or.inl
          ⟨h1, h2, h3, overlapX_left pf _ (show pf.x - p.width + p.width = pf.x by ring)⟩))
      · rw [if_neg h3]
        by_cases h4 : p.velocityX < 0
        · rw [if_pos h4]
          exact Or.inr (Or.inr (Or.inr (Or.inl ⟨h1, h2, h4, overlapX_right pf _ rfl⟩)))
        · rw [if_neg h4]
          exact Or.inr (Or.inr (Or.inr (Or.inr
            ⟨h1, h2, le_antisymm (not_lt.mp h3) (not_lt.mp h4), rfl⟩)))

/-- C2 (counterexample): a platform overlapping the player's updated box can
receive none of the four resolutions: with both velocity components zero the
player is returned unchanged and still overlaps the platform. -/
theorem c2_cex_no_resolution :
    checkCollision (playerRect restPlayer) (platRect lowPlat) = true ∧
      (resolveCollision false lowPlat restPlayer).1 = restPlayer ∧
      checkCollision (playerRect (resolveCollision false lowPlat restPlayer).1)
        (platRect lowPlat) = true := by
  have hov : checkCollision (playerRect restPlayer) (platRect lowPlat) = true := by
    rw [checkCollision_iff]
    norm_num [restPlayer, initPlayer, lowPlat, playerRect, platRect]
  have hres : (resolveCollision false lowPlat restPlayer).1 = restPlayer := by
    unfold resolveCollision
    rw [if_pos hov]
    norm_num [restPlayer, initPlayer, lowPlat]
  refine ⟨hov, hres, ?_⟩
  rw [hres]
  exact hov

/-- Witness for C2 at a falling player overlapping a platform from above. -/
theorem c2_resolution_amended_w :
    ((fallPlayer.velocityY > 0 ∧ fallPlayer.y < lowPlat.y) ∧
        overlapY (playerRect (resolveCollision false lowPlat fallPlayer).1)
          (platRect lowPlat) = false) ∨
      (¬(fallPlayer.velocityY > 0 ∧ fallPlayer.y < lowPlat.y) ∧
          (fallPlayer.velocityY < 0 ∧ fallPlayer.y > lowPlat.y) ∧
        overlapY (playerRect (resolveCollision false lowPlat fallPlayer).1)
          (platRect lowPlat) = false) ∨
      (¬(fallPlayer.velocityY > 0 ∧ fallPlayer.y < lowPlat.y) ∧
          ¬(fallPlayer.velocityY < 0 ∧ fallPlayer.y > lowPlat.y) ∧ fallPlayer.velocityX > 0 ∧
        overlapX (playerRect (resolveCollision false lowPlat fallPlayer).1)
          (platRect lowPlat) = false) ∨
      (¬(fallPlayer.velocityY > 0 ∧ fallPlayer.y < lowPlat.y) ∧
          ¬(fallPlayer.velocityY < 0 ∧ fallPlayer.y > lowPlat.y) ∧ fallPlayer.velocityX < 0 ∧
        overlapX (playerRect (resolveCollision false lowPlat fallPlayer).1)
          (platRect lowPlat) = false) ∨
      (¬(fallPlayer.velocityY > 0 ∧ fallPlayer.y < lowPlat.y) ∧
          ¬(fallPlayer.velocityY < 0 ∧ fallPlayer.y > lowPlat.y) ∧ fallPlayer.velocityX = 0 ∧
        (resolveCollision false lowPlat fallPlayer).1 = fallPlayer) :=
  c2_resolution_amended false lowPlat fallPlayer
    (by
      rw [checkCollision_iff]
      norm_num [fallPlayer, restPlayer, initPlayer, lowPlat, playerRect, platRect])

/-- C4 (amended): a token's first overlap with the player marks it collected,
adds exactly its fixed value to the score, increments the token count by 1
for every token regardless of type (gem collection also increments the
count), and emits the themed 6-particle burst at the token's centre; a
collected token is never awarded again; reset clears all collected flags. -/
theorem c4_token_collection_amended :
    (∀ (ps : Player) (gs : GameState) (t : Token), t.collected = false →
        checkCollision (playerRect ps) (tokenRect t) = true →
        (collectToken ps gs t).token.collected = true ∧
          (collectToken ps gs t).gs.score = gs.score + t.value ∧
          (collectToken ps gs t).gs.tokens = gs.tokens + 1 ∧
          (collectToken ps gs t).bursts =
            [⟨t.x + t.width / 2, t.y + t.height / 2, 6, ParticleType.spark,
              if t.type = TokenType.shopify then "#00D4AA" else "#FFD700"⟩]) ∧
      (∀ (ps : Player) (gs : GameState) (t : Token), t.collected = true →
        (collectToken ps gs t).token.collected = true ∧
          (collectToken ps gs t).gs = gs ∧ (collectToken ps gs t).bursts = []) ∧
      (∀ w : World, ((resetGame w).tokens.all fun t => !t.collected) = true) := by
  refine ⟨?_, ?_, ?_⟩
  · intro ps gs t hc hov
    unfold collectToken
    dsimp only
    rw [if_pos ⟨by simp [hc], hov⟩]
    exact ⟨rfl, rfl, rfl, rfl⟩
  · intro ps gs t hc
    unfold collectToken
    dsimp only
    rw [if_neg (fun hcon => hcon.1 hc)]
    exact ⟨hc, rfl, rfl⟩
  · intro w
    simp [resetGame, List.all_eq_true]

/-- C4 (counterexample): collecting a gem-type token also increments the
token count — the count is not reserved for currency tokens. -/
theorem c4_cex_gem_increments_count :
    gemToken.type = TokenType.gem ∧ gemToken.collected = false ∧
      (collectToken initPlayer initGameState gemToken).gs.tokens =
        initGameState.tokens + 1 := by
  refine ⟨rfl, rfl, ?_⟩
  have hov : checkCollision (playerRect initPlayer) (tokenRect gemToken) = true := by
    rw [checkCollision_iff]
    norm_num [initPlayer, gemToken, playerRect, tokenRect]
  unfold collectToken
  dsimp only
  rw [if_pos ⟨by decide, hov⟩]

/-- Witness for C4 at a currency token overlapping the spawned player. -/
theorem c4_token_collection_amended_w :
    (collectToken initPlayer initGameState shopToken).token.collected = true ∧
      (collectToken initPlayer initGameState shopToken).gs.score =
        initGameState.score + shopToken.value ∧
      (collectToken initPlayer initGameState shopToken).gs.tokens =
        initGameState.tokens + 1 :=
  let h := c4_token_collection_amended.1 initPlayer initGameState shopToken rfl
    (by
      rw [checkCollision_iff]
      norm_num [initPlayer, shopToken, playerRect, tokenRect])
  ⟨h.1, h.2.1, h.2.2.1⟩

/-- C6: an active enemy overlapping the player while the player is not
invulnerable triggers exactly one of two outcomes — dashing permanently
deactivates the enemy with the fixed 100-point bonus, an explosion burst at
the enemy's centre and shake 15, no health loss; otherwise the player loses
one health point, is knocked back opposite its facing, enters the damage
state with a 120-frame invulnerability window and the larger shake 25 while
the enemy stays active. Inactive enemies are skipped entirely, and reset
reactivates every enemy. -/
theorem c6_enemy_collision :
    (∀ (ps pc : Player) (gs : GameState) (e : Enemy),
        checkCollision (playerRect ps) (enemyRect e) = true → ps.invulnerable ≤ 0 →
        ps.state = PState.dashing →
        (enemyHit ps pc gs e).e.active = false ∧
          (enemyHit ps pc gs e).gs.score = gs.score + 100 ∧
          (enemyHit ps pc gs e).gs.screenShake = 15 ∧
          (enemyHit ps pc gs e).pc = pc ∧
          (enemyHit ps pc gs e).bursts =
            [⟨e.x + e.width / 2, e.y + e.height / 2, 12, ParticleType.explosion, "#FF4444"⟩]) ∧
      (∀ (ps pc : Player) (gs : GameState) (e : Enemy),
        checkCollision (playerRect ps) (enemyRect e) = true → ps.invulnerable ≤ 0 →
        ps.state ≠ PState.dashing →
        (enemyHit ps pc gs e).e = e ∧
          (enemyHit ps pc gs e).pc.health = pc.health - 1 ∧
          (enemyHit ps pc gs e).pc.state = PState.damage ∧
          (enemyHit ps pc gs e).pc.invulnerable = 120 ∧
          (enemyHit ps pc gs e).pc.velocityX =
            (if pc.facing = Facing.right then -5 else 5) ∧
          (enemyHit ps pc gs e).gs.screenShake = 25 ∧
          (enemyHit ps pc gs e).gs.score = gs.score) ∧
      (∀ (sinq : ℚ → ℚ) (ps pc : Player) (gs : GameState) (rs : List ℚ) (e : Enemy),
        e.active = false → updateEnemy sinq ps pc gs rs e = (pc, gs, rs, e, [])) ∧
      (∀ w : World, ((resetGame w).enemies.all fun e => e.active) = true) := by
  refine ⟨?_, ?_, ?_, ?_⟩
  · intro ps pc gs e hov hinv hd
    unfold enemyHit
    rw [if_pos ⟨hov, hinv⟩, if_pos hd]
    exact ⟨rfl, rfl, rfl, rfl, rfl⟩
  · intro ps pc gs e hov hinv hd
    unfold enemyHit
    rw [if_pos ⟨hov, hinv⟩, if_neg hd]
    exact ⟨rfl, rfl, rfl, rfl, rfl, rfl, rfl⟩
  · intro sinq ps pc gs rs e h
    unfold updateEnemy
    rw [if_pos h]
  · intro w
    simp [resetGame, List.all_eq_true]

/-- Witness for C6: a dashing player defeating an overlapping enemy. -/
theorem c6_enemy_collision_w :
    (enemyHit dashPlayer initPlayer initGameState nearEnemy).e.active = false ∧
      (enemyHit dashPlayer initPlayer initGameState nearEnemy).gs.score =
        initGameState.score + 100 ∧
      (enemyHit dashPlayer initPlayer initGameState nearEnemy).pc = initPlayer :=
  let h := c6_enemy_collision.1 dashPlayer initPlayer initGameState nearEnemy
    (by
      rw [checkCollision_iff]
      norm_num [dashPlayer, initPlayer, nearEnemy, playerRect, enemyRect])
    (by decide) rfl
  ⟨h.1, h.2.1, h.2.2.2.1⟩

/-- C8: an airborne player past the coyote window with an unused double jump
and a freshly buffered jump press gets exactly one upward impulse — vertical
velocity set to the fixed jump force — and `hasDoubleJumped` becomes true;
once `hasDoubleJumped` is set and coyote time is exhausted, the jump branch
never fires again, and a full tick of the controller keeps the flag set and
the coyote counter at zero while the player starts airborne. -/
theorem c8_double_jump :
    (∀ p : Player, p.onGround = false → p.coyoteTime = 0 → p.canDoubleJump = true →
        p.hasDoubleJumped = false → p.jumpBuffer = JUMP_BUFFER_TIME →
        (jumpStep (bufferStep (coyoteStep p))).velocityY = JUMP_FORCE ∧
          (jumpStep (bufferStep (coyoteStep p))).hasDoubleJumped = true ∧
          (jumpStep (bufferStep (coyoteStep p))).state = PState.jumping ∧
          (jumpStep (bufferStep (coyoteStep p))).jumpBuffer = 0) ∧
      (∀ q : Player, q.coyoteTime ≤ 0 → q.hasDoubleJumped = true → jumpStep q = q) ∧
      (∀ (k : Keys) (plats : List Platform) (p : Player), p.onGround = false →
        p.hasDoubleJumped = true → p.coyoteTime = 0 →
        (playerPhysics k plats p).player.hasDoubleJumped = true ∧
          (playerPhysics k plats p).player.coyoteTime = 0) := by
  refine ⟨?_, jumpStep_noop, playerPhysics_dj⟩
  intro p hg hc hcd hdj hb
  rw [coyoteStep_airborne p hg hc]
  unfold bufferStep
  rw [if_pos (show p.jumpBuffer > 0 by rw [hb]; decide)]
  unfold jumpStep
  rw [if_pos, if_pos]
  · exact ⟨rfl, rfl, rfl, rfl⟩
  · exact ⟨by simp [hc], hcd⟩
  · refine ⟨?_, Or.inr ⟨by simp [hdj], hcd⟩⟩
    show p.jumpBuffer - 1 > 0
    rw [hb]
    decide

/-- Witness for C8 at the buffered airborne player. -/
theorem c8_double_jump_w :
    ((jumpStep (bufferStep (coyoteStep bufferedPlayer))).velocityY = JUMP_FORCE ∧
        (jumpStep (bufferStep (coyoteStep bufferedPlayer))).hasDoubleJumped = true ∧
        (jumpStep (bufferStep (coyoteStep bufferedPlayer))).state = PState.jumping ∧
        (jumpStep (bufferStep (coyoteStep bufferedPlayer))).jumpBuffer = 0) ∧
      jumpStep { bufferedPlayer with hasDoubleJumped := true } =
        { bufferedPlayer with hasDoubleJumped := true } ∧
      ((playerPhysics noKeys [] { bufferedPlayer with hasDoubleJumped := true }).player.hasDoubleJumped = true ∧
        (playerPhysics noKeys [] { bufferedPlayer with hasDoubleJumped := true }).player.coyoteTime = 0) :=
  ⟨c8_double_jump.1 bufferedPlayer rfl rfl rfl rfl rfl,
    c8_double_jump.2.1 { bufferedPlayer with hasDoubleJumped := true } (by decide) rfl,
    c8_double_jump.2.2 noKeys [] { bufferedPlayer with hasDoubleJumped := true } rfl rfl rfl⟩

lemma movingInv_step (o : ℚ) (r : ℕ) (pf : Platform) (h : movingInv o r pf) :
    movingInv o r (movePlat pf) ∧ o ≤ (movePlat pf).x ∧ (movePlat pf).x ≤ o + (r : ℚ) := by
  obtain ⟨hty, hsp, hox, hmr, hr1, ⟨n, hx, hnr⟩, hdir⟩ := h
  have hrne : (r : ℚ) ≠ 0 := Nat.cast_ne_zero.mpr (by omega)
  have hrQ : (1 : ℚ) ≤ (r : ℚ) := by exact_mod_cast hr1
  have hmp : movePlat pf =
      (if pf.x + 1 * jsOrOne pf.moveDirection ≥ o + (r : ℚ) ∨
          pf.x + 1 * jsOrOne pf.moveDirection ≤ o then
        { pf with
          x := pf.x + 1 * jsOrOne pf.moveDirection
          moveDirection := some (-(jsOrOne pf.moveDirection)) }
      else { pf with x := pf.x + 1 * jsOrOne pf.moveDirection }) := by
    unfold movePlat
    rw [hsp, hox, hmr]
    dsimp only
    rw [if_pos ⟨hty, one_ne_zero, hrne⟩]
  rcases hdir with ⟨hd, hne⟩ | ⟨hd, hne⟩
  · have hj : jsOrOne pf.moveDirection = 1 := by
      rw [hd]
      norm_num [jsOrOne]
    rw [hmp, hj]
    have hnne : n ≠ r := by
      intro hcon
      apply hne
      rw [hx, hcon]
    have hx1 : pf.x + 1 * 1 = o + ((n + 1 : ℕ) : ℚ) := by
      rw [hx]
      push_cast
      ring
    by_cases hb : n + 1 = r
    · have heq : pf.x + 1 * 1 = o + (r : ℚ) := by rw [hx1, hb]
      rw [if_pos (Or.inl (ge_of_eq heq))]
      refine ⟨⟨hty, hsp, hox, hmr, hr1, ⟨n + 1, hx1, by omega⟩, Or.inr ⟨rfl, ?_⟩⟩, ?_, ?_⟩
      · show pf.x + 1 * 1 ≠ o
        rw [heq]
        intro hcon
        have : (r : ℚ) = 0 := by linarith
        exact hrne this
      · show o ≤ pf.x + 1 * 1
        rw [heq]
        linarith
      · show pf.x + 1 * 1 ≤ o + (r : ℚ)
        rw [heq]
    · have hlt : n + 1 < r := by omega
      have hcond : ¬(pf.x + 1 * 1 ≥ o + (r : ℚ) ∨ pf.x + 1 * 1 ≤ o) := by
        rw [hx1]
        rintro (hcon | hcon)
        · have h1 : (r : ℚ) ≤ ((n + 1 : ℕ) : ℚ) := by linarith
          have : r ≤ n + 1 := by exact_mod_cast h1
          omega
        · have h1 : ((n + 1 : ℕ) : ℚ) ≤ 0 := by linarith
          have : (n + 1 : ℕ) ≤ 0 := by exact_mod_cast h1
          omega
      rw [if_neg hcond]
      refine ⟨⟨hty, hsp, hox, hmr, hr1, ⟨n + 1, hx1, by omega⟩, Or.inl ⟨hd, ?_⟩⟩, ?_, ?_⟩
      · show pf.x + 1 * 1 ≠ o + (r : ℚ)
        rw [hx1]
        intro hcon
        have h1 : ((n + 1 : ℕ) : ℚ) = (r : ℚ) := by linarith
        exact hb (by exact_mod_cast h1)
      · show o ≤ pf.x + 1 * 1
        rw [hx1]
        have : (0 : ℚ) ≤ ((n + 1 : ℕ) : ℚ) := by positivity
        linarith
      · show pf.x + 1 * 1 ≤ o + (r : ℚ)
        rw [hx1]
        have : ((n + 1 : ℕ) : ℚ) ≤ (r : ℚ) := by exact_mod_cast hlt.le
        linarith
  · have hj : jsOrOne pf.moveDirection = -1 := by
      rw [hd]
      norm_num [jsOrOne]
    rw [hmp, hj]
    have hn1 : 1 ≤ n := by
      rcases Nat.eq_zero_or_pos n with h0 | h0
      · exfalso
        apply hne
        rw [hx, h0]
        norm_num
      · omega
    have hx1 : pf.x + 1 * (-1) = o + ((n - 1 : ℕ) : ℚ) := by
      rw [hx, Nat.cast_sub hn1]
      push_cast
      ring
    by_cases hb : n = 1
    · have heq : pf.x + 1 * (-1) = o := by
        rw [hx1, hb]
        norm_num
      rw [if_pos (Or.inr (le_of_eq heq))]
      refine ⟨⟨hty, hsp, hox, hmr, hr1,
        ⟨0, by show pf.x + 1 * (-1) = o + ((0 : ℕ) : ℚ); rw [heq]; norm_num, by omega⟩,
        Or.inl ⟨by norm_num, ?_⟩⟩, ?_, ?_⟩
      · show pf.x + 1 * (-1) ≠ o + (r : ℚ)
        rw [heq]
        intro hcon
        have : (r : ℚ) = 0 := by linarith
        exact hrne this
      · show o ≤ pf.x + 1 * (-1)
        rw [heq]
      · show pf.x + 1 * (-1) ≤ o + (r : ℚ)
        rw [heq]
        linarith
    · have hn2 : 2 ≤ n := by omega
      have hcond : ¬(pf.x + 1 * (-1) ≥ o + (r : ℚ) ∨ pf.x + 1 * (-1) ≤ o) := by
        rw [hx1]
        rintro (hcon | hcon)
        · have h1 : (r : ℚ) ≤ ((n - 1 : ℕ) : ℚ) := by linarith
          have : r ≤ n - 1 := by exact_mod_cast h1
          omega
        · have h1 : ((n - 1 : ℕ) : ℚ) ≤ 0 := by linarith
          have h2 : (n - 1 : ℕ) ≤ 0 := by exact_mod_cast h1
          omega
      rw [if_neg hcond]
      refine ⟨⟨hty, hsp, hox, hmr, hr1, ⟨n - 1, hx1, by omega⟩, Or.inr ⟨hd, ?_⟩⟩, ?_, ?_⟩
      · show pf.x + 1 * (-1) ≠ o
        rw [hx1]
        intro hcon
        have h1 : ((n - 1 : ℕ) : ℚ) = 0 := by linarith
        have : (n - 1 : ℕ) = 0 := by exact_mod_cast h1
        omega
      · show o ≤ pf.x + 1 * (-1)
        rw [hx1]
        have : (0 : ℚ) ≤ ((n - 1 : ℕ) : ℚ) := by positivity
        linarith
      · show pf.x + 1 * (-1) ≤ o + (r : ℚ)
        rw [hx1]
        have : ((n - 1 : ℕ) : ℚ) ≤ (r : ℚ) := by exact_mod_cast (by omega : n - 1 ≤ r)
        linarith

lemma movingPlat_inv : movingInv 950 100 movingPlat := by
  refine ⟨rfl, rfl, rfl, by norm_num [movingPlat], by norm_num,
    ⟨0, by norm_num [movingPlat], by norm_num⟩, Or.inl ⟨rfl, by norm_num [movingPlat]⟩⟩

/-- C9: the per-tick advance of a moving platform keeps its x inside the
closed interval `[originX, originX + range]`: the invariant `movingInv`
(unit speed, direction ±1, integer offset inside the band, direction already
reversed at a bound) is preserved by `movePlat` and implies the bounds, and
the level's moving platform satisfies it initially. -/
theorem c9_moving_platform_bounds :
    (∀ (o : ℚ) (r : ℕ) (pf : Platform), movingInv o r pf →
        movingInv o r (movePlat pf) ∧ o ≤ (movePlat pf).x ∧
          (movePlat pf).x ≤ o + (r : ℚ)) ∧
      movingInv 950 100 movingPlat :=
  ⟨movingInv_step, movingPlat_inv⟩

/-- Witness for C9 at the level's moving platform. -/
theorem c9_moving_platform_bounds_w :
    movingInv 950 100 (movePlat movingPlat) ∧ 950 ≤ (movePlat movingPlat).x ∧
      (movePlat movingPlat).x ≤ 950 + ((100 : ℕ) : ℚ) :=
  c9_moving_platform_bounds.1 950 100 movingPlat movingPlat_inv
